import Mathlib

/-!
Verification development for the agent orchestration / action-dispatch
framework of the career-profile optimization repository
(`src/agents/base_agent.py` and its five concrete subclasses).

The Python code is dynamically typed; we shallowly embed its runtime
values as the inductive type `Value` (None, bool, int, float, str, list,
dict with string keys — the only dict keys the framework ever uses).
Python exceptions are modelled as `Except String`: every operation that
can raise (`d[k]`, `d.get(k, default)` on a non-dict, `s.lower()` on a
non-str, iteration of a non-iterable, …) returns `Except String Value`,
carrying `str(e)` of the corresponding Python exception.  Python floats
are modelled as rationals (`Rat`); the only float arithmetic the embedded
code performs is comparison against exact decimal literals and
weighted sums, where the distinction is irrelevant to the claims.
-/

inductive Value : Type where
  | none : Value
  | bool (b : Bool) : Value
  | int (n : Int) : Value
  | float (q : Rat) : Value
  | str (s : String) : Value
  | list (xs : List Value) : Value
  | dict (entries : List (String × Value)) : Value


/-- Python `s.lower()` on an actual string (character-wise lowering,
written so that it reduces inside the kernel). -/
def strLower (s : String) : String := String.mk (s.toList.map Char.toLower)

namespace Value

/-- Python `type(v).__name__`. -/
def typeName : Value → String
  | .none => "NoneType"
  | .bool _ => "bool"
  | .int _ => "int"
  | .float _ => "float"
  | .str _ => "str"
  | .list _ => "list"
  | .dict _ => "dict"

/-- Python truthiness (`bool(v)`). -/
def truthy : Value → Bool
  | .none => false
  | .bool b => b
  | .int n => n != 0
  | .float q => q != 0
  | .str s => s ≠ ""
  | .list xs => !xs.isEmpty
  | .dict es => !es.isEmpty

/-- Association-list lookup for dict entries (first match; the embedded
code never constructs a dict with duplicate keys). -/
def lookupEntry : List (String × Value) → String → Option Value
  | [], _ => Option.none
  | (k, v) :: rest, key => if k = key then some v else lookupEntry rest key

/-- Python `d.get(key, default)`; raises AttributeError on non-dicts. -/
def getD (v : Value) (key : String) (default : Value) : Except String Value :=
  match v with
  | .dict es =>
    match lookupEntry es key with
    | some w => .ok w
    | Option.none => .ok default
  | _ => .error s!"'{v.typeName}' object has no attribute 'get'"

/-- Python `d[key]` for a string key; KeyError when missing, TypeError on
non-dicts (the framework only ever subscripts with string keys). -/
def subscript (v : Value) (key : String) : Except String Value :=
  match v with
  | .dict es =>
    match lookupEntry es key with
    | some w => .ok w
    | Option.none => .error s!"'{key}'"
  | _ => .error s!"'{v.typeName}' object is not subscriptable"

/-- Python `for x in v`: lists yield elements, dicts yield their keys,
strings yield their characters; everything else raises TypeError. -/
def iterate (v : Value) : Except String (List Value) :=
  match v with
  | .list xs => .ok xs
  | .dict es => .ok (es.map fun e => .str e.1)
  | .str s => .ok (s.toList.map fun c => .str (String.mk [c]))
  | _ => .error s!"'{v.typeName}' object is not iterable"

/-- Python `len(v)` for the containers the embedded code measures. -/
def pyLen (v : Value) : Except String Nat :=
  match v with
  | .str s => .ok s.length
  | .list xs => .ok xs.length
  | .dict es => .ok es.length
  | _ => .error s!"object of type '{v.typeName}' has no len()"

/-- Numeric view used by Python comparisons (`bool` is an `int` subtype). -/
def toRat? : Value → Option Rat
  | .bool b => some (if b then 1 else 0)
  | .int n => some (n : Rat)
  | .float q => some q
  | _ => Option.none

/-- Python `a < b` as used by the embedded code (numeric operands;
anything else raises TypeError). -/
def pyLt (a b : Value) : Except String Bool :=
  match a.toRat?, b.toRat? with
  | some x, some y => .ok (decide (x < y))
  | _, _ =>
    .error s!"'<' not supported between instances of '{a.typeName}' and '{b.typeName}'"

/-- Python `s.lower()`; AttributeError on non-strings. -/
def pyLower (v : Value) : Except String String :=
  match v with
  | .str s => .ok (strLower s)
  | _ => .error s!"'{v.typeName}' object has no attribute 'lower'"

/-- Python `s.split()` (split on whitespace, dropping empty pieces);
AttributeError on non-strings. -/
def pySplitWs (v : Value) : Except String (List String) :=
  match v with
  | .str s => .ok ((s.split Char.isWhitespace).filter fun t => t ≠ "")
  | _ => .error s!"'{v.typeName}' object has no attribute 'split'"

/-- Python `str(v)` (best effort; the embedded code only ever formats
strings and numbers into messages). -/
def pyStr : Value → String
  | .none => "None"
  | .bool b => if b then "True" else "False"
  | .int n => toString n
  | .float q => toString q
  | .str s => s
  | .list _ => "[...]"
  | .dict _ => "{...}"

/-- Equality test against a string (used for dispatch-table lookup, whose
keys are all string literals). -/
def eqStr : Value → String → Bool
  | .str s, t => s = t
  | _, _ => false

end Value

/-- Substring test, Python `needle in hay` for strings. -/
def strContainsAux (needle : List Char) : List Char → Bool
  | [] => needle.isEmpty
  | c :: rest => List.isPrefixOf needle (c :: rest) || strContainsAux needle rest

/-- Python `needle in hay` on strings. -/
def strContains (hay needle : String) : Bool :=
  strContainsAux needle.toList hay.toList

/-- Embeds `AgentState` from `base_agent.py`. -/
inductive AgentState : Type where
  | idle | thinking | executing | waiting | completed | error
deriving DecidableEq, Repr

/-- Embeds `AgentMessage` from `base_agent.py`. -/
structure AgentMessage : Type where
  role : String
  content : String
  metadata : Value := .dict []

/-- Embeds `AgentAction` from `base_agent.py`.  The dataclass is untyped at
runtime, so `name` and the payloads are arbitrary values. -/
structure AgentAction : Type where
  name : Value
  input_data : Value
  output_data : Option Value := Option.none
  status : String := "pending"
  error : Option String := Option.none

/-- The mutable fields every agent owns through `BaseAgent.__init__`. -/
structure AgentCore : Type where
  name : String
  description : String
  state : AgentState := .idle
  memory : List AgentMessage := []
  actionsHistory : List AgentAction := []

/-- A concrete agent = the shared core plus its subclass-specific fields
`ε`, together with its `think`/`execute` overrides.  `think` in every
subclass of this repository reads but never writes the instance, so it is
embedded as a pure function; `execute` may update subclass fields (e.g.
`OptimizationAgent._record_optimization`), so it returns a new state. -/
structure AgentOps (ε : Type) : Type where
  think : AgentCore × ε → Value → Except String Value
  execute : AgentCore × ε → AgentAction → Except String (Value × (AgentCore × ε))

def setAgentState {ε : Type} (s : AgentCore × ε) (st : AgentState) : AgentCore × ε :=
  ({ s.1 with state := st }, s.2)

/-- The success outcome built at the end of `BaseAgent.run`. -/
def successOutcome (agent : String) (results : List Value) (thought : Value) : Value :=
  .dict [("status", .str "success"), ("agent", .str agent),
         ("results", .list results), ("thought", thought)]

/-- The error outcome built in the `except` block of `BaseAgent.run`. -/
def errorOutcome (agent : String) (msg : String) : Value :=
  .dict [("status", .str "error"), ("agent", .str agent), ("error", .str msg)]

/-- The `for action_data in actions` loop of `BaseAgent.run`: build a
pending `AgentAction`, execute it, mark it completed, append it to the
history and collect its result.  Any exception leaves the state as
mutated so far and aborts with the message. -/
def execLoop {ε : Type} (ops : AgentOps ε) :
    AgentCore × ε → List Value → List Value →
    (AgentCore × ε) × Except String (List Value)
  | s, [], acc => (s, .ok acc)
  | s, ad :: rest, acc =>
    match ad.subscript "name" with
    | .error e => (s, .error e)
    | .ok nm =>
      match ad.getD "input" (.dict []) with
      | .error e => (s, .error e)
      | .ok inp =>
        let action : AgentAction := { name := nm, input_data := inp }
        match ops.execute s action with
        | .error e => (s, .error e)
        | .ok (result, s') =>
          let completed : AgentAction :=
            { action with output_data := some result, status := "completed" }
          let s'' : AgentCore × ε :=
            ({ s'.1 with actionsHistory := s'.1.actionsHistory ++ [completed] }, s'.2)
          execLoop ops s'' rest (acc ++ [result])

/-- Embeds `BaseAgent.run`: think → execute each requested action in order →
report; wrap every exception raised anywhere inside into an error outcome. -/
def runAgent {ε : Type} (ops : AgentOps ε) (s : AgentCore × ε) (input : Value) :
    (AgentCore × ε) × Value :=
  let s1 := setAgentState s .thinking
  match ops.think s1 input with
  | .error e => (setAgentState s1 .error, errorOutcome s1.1.name e)
  | .ok thought =>
    let s2 := setAgentState s1 .executing
    match thought.getD "actions" (.list []) with
    | .error e => (setAgentState s2 .error, errorOutcome s2.1.name e)
    | .ok actionsV =>
      match actionsV.iterate with
      | .error e => (setAgentState s2 .error, errorOutcome s2.1.name e)
      | .ok actions =>
        match execLoop ops s2 actions [] with
        | (s3, .error e) => (setAgentState s3 .error, errorOutcome s3.1.name e)
        | (s3, .ok results) =>
          (setAgentState s3 .completed, successOutcome s3.1.name results thought)

/-- Embeds `BaseAgent.add_to_memory`. -/
def addToMemory {ε : Type} (s : AgentCore × ε) (m : AgentMessage) : AgentCore × ε :=
  ({ s.1 with memory := s.1.memory ++ [m] }, s.2)

/-- Python `lst[-limit:]` for a natural `limit` — note `lst[-0:]` is the
whole list. -/
def pySliceLast {α : Type} (l : List α) (limit : Nat) : List α :=
  if limit = 0 then l else l.drop (l.length - limit)

/-- Embeds `BaseAgent.get_memory_context` (Python default `limit=10`). -/
def getMemoryContext {ε : Type} (s : AgentCore × ε) (limit : Nat) : List Value :=
  (pySliceLast s.1.memory limit).map fun m =>
    .dict [("role", .str m.role), ("content", .str m.content)]

/-- Embeds `BaseAgent.reset`. -/
def resetAgent {ε : Type} (s : AgentCore × ε) : AgentCore × ε :=
  ({ s.1 with state := .idle, memory := [], actionsHistory := [] }, s.2)

/-- Python `needle in v` for a string needle (substring test on strings;
TypeError elsewhere — the embedded code only uses it on strings). -/
def Value.strIn (needle : String) : Value → Except String Bool
  | .str s => .ok (strContains s needle)
  | v => .error s!"argument of type '{v.typeName}' is not iterable"

/-- Python `s.isdigit()` (true for a nonempty all-digit string). -/
def pyIsDigit : Value → Except String Bool
  | .str s => .ok (!s.isEmpty && s.toList.all Char.isDigit)
  | v => .error s!"'{v.typeName}' object has no attribute 'isdigit'"

/-- Python `any(c.isdigit() for c in <elements>)`, short-circuiting like
`any` (elements after the first hit are not evaluated). -/
def pyAnyDigitList : List Value → Except String Bool
  | [] => .ok false
  | c :: rest => do
    let b ← pyIsDigit c
    if b then pure true else pyAnyDigitList rest

/-- Python `any(char.isdigit() for char in v)`. -/
def anyCharIsDigit (v : Value) : Except String Bool := do
  let xs ← v.iterate
  pyAnyDigitList xs

/-- Python `bool * n` (bool is an int: True*n = n, False*n = 0). -/
def boolTimes (b : Bool) (n : Int) : Int := if b then n else 0

/-- The `{"error": f"Unknown action: {action.name}"}` payload every
concrete `execute` returns on a dispatch miss. -/
def unknownActionPayload (nm : Value) : Value :=
  .dict [("error", .str s!"Unknown action: {nm.pyStr}")]

/-! ## ProfileAnalyzerAgent (`profile_analyzer_agent.py`) -/

namespace ProfileAnalyzer

/-- Subclass field `self.analysis_cache` (initialized `{}`, never written). -/
structure Extra : Type where
  analysis_cache : Value := .dict []

/-- Embeds `_get_headline_recommendations`, taking the two pattern flags it
reads from the freshly built `patterns` dict. -/
def getHeadlineRecommendations (has_value_proposition has_metrics : Bool) : List Value :=
  (if !has_value_proposition then [Value.str "Add a value proposition to your headline"] else [])
  ++ (if !has_metrics then [Value.str "Include quantifiable achievements"] else [])

/-- Embeds `ProfileAnalyzerAgent._analyze_headline`. -/
def analyzeHeadline (data : Value) : Except String Value := do
  let headline ← data.getD "headline" (.str "")
  let has_title := headline.truthy
  let word_count : Int ←
    if headline.truthy then do
      let parts ← headline.pySplitWs
      pure (parts.length : Int)
    else pure 0
  let lowered ← headline.pyLower
  let has_value_proposition :=
    ["helping", "driving", "building", "leading"].any fun kw => strContains lowered kw
  let has_metrics ← anyCharIsDigit headline
  let sepBar ← Value.strIn "|" headline
  let sepDot ← Value.strIn "•" headline
  let uses_separator := sepBar || sepDot
  let patterns : Value := .dict
    [("has_title", .bool has_title),
     ("word_count", .int word_count),
     ("has_value_proposition", .bool has_value_proposition),
     ("has_metrics", .bool has_metrics),
     ("uses_separator", .bool uses_separator)]
  let score : Int :=
    boolTimes has_title 20 + min (word_count * 5) 25 +
    boolTimes has_value_proposition 25 + boolTimes has_metrics 15 +
    boolTimes uses_separator 15
  pure (.dict
    [("section", .str "headline"),
     ("patterns", patterns),
     ("score", .int (min score 100)),
     ("recommendations", .list (getHeadlineRecommendations has_value_proposition has_metrics))])

/-- Embeds `_get_about_recommendations`. -/
def getAboutRecommendations (word_count : Int) (has_call_to_action : Bool) : List Value :=
  (if word_count < 100 then [Value.str "Expand your about section (aim for 200+ words)"] else [])
  ++ (if !has_call_to_action then [Value.str "Add a call-to-action at the end"] else [])

/-- Embeds `ProfileAnalyzerAgent._analyze_about` (with `_calculate_about_score`
inlined on the just-built pattern values). -/
def analyzeAbout (data : Value) : Except String Value := do
  let about ← data.getD "about" (.str "")
  let has_content := about.truthy
  let word_count : Int ←
    if about.truthy then do
      let parts ← about.pySplitWs
      pure (parts.length : Int)
    else pure 0
  let lowered ← about.pyLower
  let has_call_to_action :=
    ["reach out", "connect", "contact", "email"].any fun kw => strContains lowered kw
  let loweredAgain ← about.pyLower
  let has_achievements :=
    ["achieved", "increased", "reduced", "led"].any fun kw => strContains loweredAgain kw
  let uses_first_person ←
    if about.truthy then do
      let l ← about.pyLower
      pure (l.startsWith "i ")
    else pure false
  let patterns : Value := .dict
    [("has_content", .bool has_content),
     ("word_count", .int word_count),
     ("has_call_to_action", .bool has_call_to_action),
     ("has_achievements", .bool has_achievements),
     ("uses_first_person", .bool uses_first_person)]
  let score : Int := min
    (boolTimes has_content 30 + min (word_count / 10) 30 +
     boolTimes has_call_to_action 20 + boolTimes has_achievements 20) 100
  pure (.dict
    [("section", .str "about"),
     ("patterns", patterns),
     ("score", .int score),
     ("recommendations", .list (getAboutRecommendations word_count has_call_to_action))])

/-- Embeds `_calculate_avg_bullets`: `0` (an int) for an empty/falsy experience
value, else the float mean of the per-entry bullet counts. -/
def calculateAvgBullets (experience : Value) : Except String Value := do
  if !experience.truthy then
    pure (.int 0)
  else do
    let entries ← experience.iterate
    let bullets ← entries.mapM fun e => do
      let b ← e.getD "bullets" (.list [])
      let n ← b.pyLen
      pure (n : Int)
    if bullets.isEmpty then pure (.int 0)
    else pure (.float ((bullets.sum : Rat) / (bullets.length : Rat)))

/-- Embeds `_check_experience_metrics`. -/
def checkExperienceMetrics (experience : Value) : Except String Int := do
  let entries ← experience.iterate
  entries.foldlM (fun count exp => do
      let desc ← exp.getD "description" (.str "")
      let hit ← anyCharIsDigit desc
      pure (if hit then count + 1 else count)) (0 : Int)

/-- Embeds `_get_experience_recommendations` on the just-built pattern values
(`avg_bullets` is the int-or-float value stored in the patterns dict). -/
def getExperienceRecommendations (avgBullets : Value) (hasMetrics totalPositions : Int) :
    Except String (List Value) := do
  let low ← avgBullets.pyLt (.int 3)
  pure <|
    (if low then [Value.str "Add more bullet points to each experience"] else [])
    ++ (if hasMetrics < totalPositions / 2
        then [Value.str "Include more quantifiable metrics"] else [])

/-- Embeds `ProfileAnalyzerAgent._analyze_experience` (score helper inlined). -/
def analyzeExperience (data : Value) : Except String Value := do
  let experience ← data.getD "experience" (.list [])
  let total_positions ← experience.pyLen
  let entries ← experience.iterate
  let has_descriptions ← entries.foldlM (fun n e => do
      let d ← e.getD "description" Value.none
      pure (if d.truthy then n + 1 else n)) (0 : Int)
  let avg_bullets ← calculateAvgBullets experience
  let has_metrics ← checkExperienceMetrics experience
  let patterns : Value := .dict
    [("total_positions", .int total_positions),
     ("has_descriptions", .int has_descriptions),
     ("avg_bullets", avg_bullets),
     ("has_metrics", .int has_metrics)]
  let avgRat : Rat := (avg_bullets.toRat?).getD 0
  let score : Int := min
    (min ((total_positions : Int) * 15) 30 + has_descriptions * 10 +
     min ⌊avgRat * 10⌋ 20 + has_metrics * 10) 100
  let recs ← getExperienceRecommendations avg_bullets has_metrics total_positions
  pure (.dict
    [("section", .str "experience"),
     ("patterns", patterns),
     ("score", .int score),
     ("recommendations", .list recs)])

/-- Embeds `_categorize_skills` of the analyzer: counts per category (the
`tools` counter is declared but never incremented in the source). -/
def categorizeSkillCounts (skills : List Value) :
    Except String (Int × Int × Int) := do
  skills.foldlM (fun (tech, soft, other) skill => do
    let name ←
      match skill with
      | .dict _ => do
        let n ← skill.getD "name" (.str "")
        n.pyLower
      | v => v.pyLower
    if ["python", "java", "sql", "aws"].any (fun kw => strContains name kw) then
      pure (tech + 1, soft, other)
    else if ["leadership", "communication"].any (fun kw => strContains name kw) then
      pure (tech, soft + 1, other)
      else
        pure (tech, soft, other + 1)) ((0 : Int), (0 : Int), (0 : Int))

/-- Embeds `ProfileAnalyzerAgent._analyze_skills` (score helper inlined). -/
def analyzeSkills (data : Value) : Except String Value := do
  let skills ← data.getD "skills" (.list [])
  let total_skills ← skills.pyLen
  let entries ← skills.iterate
  let has_endorsements ← entries.foldlM (fun n s => do
      let e ← s.getD "endorsements" (.int 0)
      let pos ← Value.pyLt (.int 0) e
      pure (if pos then n + 1 else n)) (0 : Int)
  let (tech, soft, other) ← categorizeSkillCounts entries
  let skill_categories : Value := .dict
    [("technical", .int tech), ("soft", .int soft),
     ("tools", .int 0), ("other", .int other)]
  let patterns : Value := .dict
    [("total_skills", .int total_skills),
     ("has_endorsements", .int has_endorsements),
     ("skill_categories", skill_categories)]
  let score : Int := min
    (min ((total_skills : Int) * 3) 40 + min (has_endorsements * 5) 30 +
     (if 5 < tech then 30 else 15)) 100
  let recs : List Value :=
    if (total_skills : Int) < 10
    then [Value.str "Add more relevant skills (aim for 15-20)"] else []
  pure (.dict
    [("section", .str "skills"),
     ("patterns", patterns),
     ("score", .int score),
     ("recommendations", .list recs)])

/-- Embeds `ProfileAnalyzerAgent.think`. -/
def thinkImpl (input_data : Value) : Except String Value := do
  let profile_data ← input_data.getD "profile_data" (.dict [])
  let analysis_type ← input_data.getD "analysis_type" (.str "full")
  let mut actions : List Value := []
  if analysis_type.eqStr "full" || analysis_type.eqStr "headline" then do
    let h ← profile_data.getD "headline" (.str "")
    actions := actions ++ [.dict [("name", .str "analyze_headline"),
                                  ("input", .dict [("headline", h)])]]
  if analysis_type.eqStr "full" || analysis_type.eqStr "about" then do
    let a ← profile_data.getD "about" (.str "")
    actions := actions ++ [.dict [("name", .str "analyze_about"),
                                  ("input", .dict [("about", a)])]]
  if analysis_type.eqStr "full" || analysis_type.eqStr "experience" then do
    let e ← profile_data.getD "experience" (.list [])
    actions := actions ++ [.dict [("name", .str "analyze_experience"),
                                  ("input", .dict [("experience", e)])]]
  if analysis_type.eqStr "full" || analysis_type.eqStr "skills" then do
    let sk ← profile_data.getD "skills" (.list [])
    actions := actions ++ [.dict [("name", .str "analyze_skills"),
                                  ("input", .dict [("skills", sk)])]]
  pure (.dict [("actions", .list actions),
               ("strategy", .str "comprehensive_analysis")])

/-- Embeds `ProfileAnalyzerAgent.execute`: string-keyed dispatch with the
"Unknown action" payload on a miss; no handler touches agent state. -/
def executeImpl (s : AgentCore × Extra) (a : AgentAction) :
    Except String (Value × (AgentCore × Extra)) :=
  if a.name.eqStr "analyze_headline" then (analyzeHeadline a.input_data).map (fun r => (r, s))
  else if a.name.eqStr "analyze_about" then (analyzeAbout a.input_data).map (fun r => (r, s))
  else if a.name.eqStr "analyze_experience" then (analyzeExperience a.input_data).map (fun r => (r, s))
  else if a.name.eqStr "analyze_skills" then (analyzeSkills a.input_data).map (fun r => (r, s))
  else .ok (unknownActionPayload a.name, s)

/-- The `AgentOps` record of a `ProfileAnalyzerAgent`. -/
def ops : AgentOps Extra :=
  { think := fun _ input => thinkImpl input
    execute := executeImpl }

/-- A freshly constructed `ProfileAnalyzerAgent(llm_client=None)`. -/
def init : AgentCore × Extra :=
  ({ name := "ProfileAnalyzer",
     description := "Analyzes profiles to extract success patterns" }, {})

end ProfileAnalyzer

/-- Python `sep.join(v)`: every element must be a string. -/
def pyJoin (sep : String) (v : Value) : Except String String := do
  let xs ← v.iterate
  let parts ← xs.mapM fun x =>
    match x with
    | .str s => Except.ok s
    | w => Except.error s!"sequence item: expected str instance, {w.typeName} found"
  pure (String.intercalate sep parts)

/-- Python `v[:n]` for a natural `n` (lists and strings). -/
def pySliceFirstN (v : Value) (n : Nat) : Except String Value :=
  match v with
  | .list xs => .ok (.list (xs.take n))
  | .str s => .ok (.str (String.mk (s.toList.take n)))
  | _ => .error s!"'{v.typeName}' object is not subscriptable"

/-- Python `v[0]` (lists and strings; IndexError when empty). -/
def pyIndexZero (v : Value) : Except String Value :=
  match v with
  | .list [] => .error "list index out of range"
  | .list (x :: _) => .ok x
  | .str s =>
    match s.toList with
    | [] => .error "string index out of range"
    | c :: _ => .ok (.str (String.mk [c]))
  | _ => .error s!"'{v.typeName}' object is not subscriptable"

/-- Python dict assignment `d[k] = v` on entry lists: replace in place if
the key exists (keeping its position), else append. -/
def dictAssign : List (String × Value) → String → Value → List (String × Value)
  | [], k, v => [(k, v)]
  | (k', v') :: rest, k, v =>
    if k' = k then (k, v) :: rest else (k', v') :: dictAssign rest k v

/-! ## ContentGeneratorAgent (`content_generator_agent.py`) -/

namespace ContentGenerator

/-- Embeds `_load_templates` (the raw prompt templates, stored verbatim
in `self.templates`). -/
def loadTemplates : Value := .dict
  [("headline", .str "Generate a compelling LinkedIn headline for:\nRole: {role}\nIndustry: {industry}\nKey Skills: {skills}\nValue Proposition: {value_prop}\n\nRequirements:\n- Maximum 120 characters\n- Include role and value proposition\n- Use power words\n- Make it specific and impactful"),
   ("about", .str "Write a professional LinkedIn About section for:\nName: {name}\nCurrent Role: {role}\nIndustry: {industry}\nExperience Summary: {experience}\nKey Achievements: {achievements}\nCareer Goals: {goals}\n\nRequirements:\n- 200-300 words\n- First person perspective\n- Hook in first line\n- Include achievements with metrics\n- End with call-to-action"),
   ("experience_bullet", .str "Transform this experience into impactful bullet points:\nRole: {role}\nCompany: {company}\nResponsibilities: {responsibilities}\n\nRequirements:\n- Start with action verb\n- Include quantifiable results\n- Be specific and concise\n- 3-5 bullet points")]

/-- Subclass fields: the optional text-generation capability (`None` in
every scenario the claims cover) and the template table. -/
structure Extra : Type where
  llm_client : Option (String → Except String Value) := Option.none
  templates : Value := loadTemplates

/-- Embeds `templates["headline"].format(role=…, industry=…, skills=…,
value_prop=…)` applied to the literal headline template. -/
def formatHeadlineTemplate (role industry skills value_prop : String) : String :=
  "Generate a compelling LinkedIn headline for:\nRole: " ++ role ++
  "\nIndustry: " ++ industry ++ "\nKey Skills: " ++ skills ++
  "\nValue Proposition: " ++ value_prop ++
  "\n\nRequirements:\n- Maximum 120 characters\n- Include role and value proposition\n- Use power words\n- Make it specific and impactful"

/-- Embeds `templates["about"].format(...)` applied to the about template. -/
def formatAboutTemplate (name role industry experience achievements goals : String) : String :=
  "Write a professional LinkedIn About section for:\nName: " ++ name ++
  "\nCurrent Role: " ++ role ++ "\nIndustry: " ++ industry ++
  "\nExperience Summary: " ++ experience ++ "\nKey Achievements: " ++ achievements ++
  "\nCareer Goals: " ++ goals ++
  "\n\nRequirements:\n- 200-300 words\n- First person perspective\n- Hook in first line\n- Include achievements with metrics\n- End with call-to-action"

/-- Embeds `templates["experience_bullet"].format(...)`. -/
def formatExperienceTemplate (role company responsibilities : String) : String :=
  "Transform this experience into impactful bullet points:\nRole: " ++ role ++
  "\nCompany: " ++ company ++ "\nResponsibilities: " ++ responsibilities ++
  "\n\nRequirements:\n- Start with action verb\n- Include quantifiable results\n- Be specific and concise\n- 3-5 bullet points"

/-- Embeds `ContentGeneratorAgent._template_headline` (the deterministic
fallback used when no LLM client is configured). -/
def templateHeadline (user_data : Value) : Except String Value := do
  let role ← user_data.getD "target_role" (.str "Professional")
  let industry ← user_data.getD "industry" (.str "")
  let skills ← user_data.getD "top_skills" (.list [])
  let skill_str ←
    if skills.truthy then do
      let firstTwo ← pySliceFirstN skills 2
      let j ← pyJoin " & " firstTwo
      pure j
    else pure "Excellence"
  pure (.str (role.pyStr ++ " | " ++ skill_str ++ " | Driving Impact in " ++ industry.pyStr))

/-- Embeds `ContentGeneratorAgent._template_about`.  Note the source
fetches `name` but never interpolates it into the f-string. -/
def templateAbout (user_data : Value) : Except String Value := do
  let _name ← user_data.getD "name" (.str "I")
  let role ← user_data.getD "current_role" (.str "professional")
  let industry ← user_data.getD "industry" (.str "my field")
  let skillsV ← user_data.getD "top_skills" (.list [Value.str "Leadership", Value.str "Innovation"])
  let skill0 ← pyIndexZero skillsV
  pure (.str ("Passionate " ++ role.pyStr ++ " with expertise in " ++ industry.pyStr ++
    ".\n\nI thrive on solving complex challenges and delivering measurable results. \nMy approach combines strategic thinking with hands-on execution.\n\nKey areas of expertise:\n• " ++
    skill0.pyStr ++
    "\n• Strategic Planning\n• Team Collaboration\n\nLet" ++ "\x27" ++
    "s connect to explore how we can create value together.\n📧 Feel free to reach out!"))

/-- Embeds `ContentGeneratorAgent._template_experience`. -/
def templateExperience (exp : Value) : Except String Value := do
  let company ← exp.getD "company" (.str "the organization")
  pure (.list
    [.str ("Led initiatives at " ++ company.pyStr),
     .str "Collaborated with cross-functional teams to deliver results",
     .str "Implemented improvements that enhanced efficiency"])

/-- Embeds `ContentGeneratorAgent._generate_headline`. -/
def generateHeadline (ex : Extra) (data : Value) : Except String Value := do
  let user_data ← data.getD "user_data" (.dict [])
  let roleV ← user_data.getD "target_role" (.str "Professional")
  let industryV ← user_data.getD "industry" (.str "Technology")
  let skillsV ← user_data.getD "top_skills" (.list [Value.str "Leadership"])
  let skillsJoined ← pyJoin ", " skillsV
  let valuePropV ← user_data.getD "value_proposition" (.str "Driving results")
  let prompt := formatHeadlineTemplate roleV.pyStr industryV.pyStr skillsJoined valuePropV.pyStr
  let generated ←
    match ex.llm_client with
    | some g => g prompt
    | Option.none => templateHeadline user_data
  pure (.dict [("section", .str "headline"), ("content", generated),
               ("prompt_used", .str prompt)])

/-- Embeds `ContentGeneratorAgent._generate_about`. -/
def generateAbout (ex : Extra) (data : Value) : Except String Value := do
  let user_data ← data.getD "user_data" (.dict [])
  let nameV ← user_data.getD "name" (.str "Professional")
  let roleV ← user_data.getD "current_role" (.str "")
  let industryV ← user_data.getD "industry" (.str "")
  let expV ← user_data.getD "experience_summary" (.str "")
  let achV ← user_data.getD "achievements" (.list [])
  let achJoined ← pyJoin ", " achV
  let goalsV ← user_data.getD "career_goals" (.str "")
  let prompt := formatAboutTemplate nameV.pyStr roleV.pyStr industryV.pyStr
    expV.pyStr achJoined goalsV.pyStr
  let generated ←
    match ex.llm_client with
    | some g => g prompt
    | Option.none => templateAbout user_data
  pure (.dict [("section", .str "about"), ("content", generated),
               ("prompt_used", .str prompt)])

/-- Embeds `ContentGeneratorAgent._generate_experience`. -/
def generateExperience (ex : Extra) (data : Value) : Except String Value := do
  let user_data ← data.getD "user_data" (.dict [])
  let experiences ← user_data.getD "experience" (.list [])
  let entries ← experiences.iterate
  let optimized ← entries.mapM fun exp => do
    let titleV ← exp.getD "title" (.str "")
    let companyV ← exp.getD "company" (.str "")
    let descV ← exp.getD "description" (.str "")
    let prompt := formatExperienceTemplate titleV.pyStr companyV.pyStr descV.pyStr
    let bullets ←
      match ex.llm_client with
      | some g => g prompt
      | Option.none => templateExperience exp
    let title ← exp.getD "title" Value.none
    let company ← exp.getD "company" Value.none
    pure (Value.dict [("title", title), ("company", company), ("bullets", bullets)])
  pure (.dict [("section", .str "experience"), ("content", .list optimized)])

/-- Embeds `ContentGeneratorAgent.think`. -/
def thinkImpl (input_data : Value) : Except String Value := do
  let content_type ← input_data.getD "content_type" (.str "all")
  let user_data ← input_data.getD "user_data" (.dict [])
  let market_patterns ← input_data.getD "market_patterns" (.dict [])
  let mut actions : List Value := []
  if content_type.eqStr "all" || content_type.eqStr "headline" then do
    let p ← market_patterns.getD "headline" (.dict [])
    actions := actions ++ [.dict [("name", .str "generate_headline"),
                                  ("input", .dict [("user_data", user_data), ("patterns", p)])]]
  if content_type.eqStr "all" || content_type.eqStr "about" then do
    let p ← market_patterns.getD "about" (.dict [])
    actions := actions ++ [.dict [("name", .str "generate_about"),
                                  ("input", .dict [("user_data", user_data), ("patterns", p)])]]
  if content_type.eqStr "all" || content_type.eqStr "experience" then do
    let p ← market_patterns.getD "experience" (.dict [])
    actions := actions ++ [.dict [("name", .str "generate_experience"),
                                  ("input", .dict [("user_data", user_data), ("patterns", p)])]]
  pure (.dict [("actions", .list actions), ("strategy", .str "content_generation")])

/-- Embeds `ContentGeneratorAgent.execute`. -/
def executeImpl (s : AgentCore × Extra) (a : AgentAction) :
    Except String (Value × (AgentCore × Extra)) :=
  if a.name.eqStr "generate_headline" then (generateHeadline s.2 a.input_data).map (fun r => (r, s))
  else if a.name.eqStr "generate_about" then (generateAbout s.2 a.input_data).map (fun r => (r, s))
  else if a.name.eqStr "generate_experience" then (generateExperience s.2 a.input_data).map (fun r => (r, s))
  else .ok (unknownActionPayload a.name, s)

/-- The `AgentOps` record of a `ContentGeneratorAgent`. -/
def ops : AgentOps Extra :=
  { think := fun _ input => thinkImpl input
    execute := executeImpl }

/-- A freshly constructed `ContentGeneratorAgent(llm_client=None)`. -/
def init : AgentCore × Extra :=
  ({ name := "ContentGenerator",
     description := "Generates optimized profile content" }, {})

end ContentGenerator

/-- Python `d.get(key, default)` where the key is itself a runtime value
(string-keyed dicts: only a string key can hit; unhashable keys raise). -/
def pyGetByValueKey (v : Value) (key : Value) (default : Value) : Except String Value :=
  match v with
  | .dict es =>
    match key with
    | .list _ => .error "unhashable type: 'list'"
    | .dict _ => .error "unhashable type: 'dict'"
    | .str k =>
      match Value.lookupEntry es k with
      | some w => .ok w
      | Option.none => .ok default
    | _ => .ok default
  | _ => .error s!"'{v.typeName}' object has no attribute 'get'"

/-! ## PortfolioAgent (`portfolio_agent.py`) -/

namespace Portfolio

/-- Embeds `_load_layout_rules`. -/
def loadLayoutRules : Value := .dict
  [("developer", .dict
     [("primary_sections", .list [.str "hero", .str "projects", .str "skills"]),
      ("layout_style", .str "project-first"),
      ("color_scheme", .str "tech-modern")]),
   ("analyst", .dict
     [("primary_sections", .list [.str "hero", .str "metrics", .str "experience"]),
      ("layout_style", .str "metrics-first"),
      ("color_scheme", .str "professional")]),
   ("designer", .dict
     [("primary_sections", .list [.str "hero", .str "portfolio", .str "about"]),
      ("layout_style", .str "visual-first"),
      ("color_scheme", .str "creative")]),
   ("manager", .dict
     [("primary_sections", .list [.str "hero", .str "experience", .str "achievements"]),
      ("layout_style", .str "experience-first"),
      ("color_scheme", .str "executive")]),
   ("default", .dict
     [("primary_sections", .list [.str "hero", .str "about", .str "skills", .str "experience"]),
      ("layout_style", .str "balanced"),
      ("color_scheme", .str "professional")])]

/-- Subclass field `self.layout_rules`. -/
structure Extra : Type where
  layout_rules : Value := loadLayoutRules

/-- Keyword lists of `_categorize_role`, in source order. -/
def devKeywords : List String := ["developer", "engineer", "programmer", "architect"]

def analystKeywords : List String := ["analyst", "scientist", "researcher"]

def designKeywords : List String := ["designer", "ux", "ui", "creative"]

def managerKeywords : List String := ["manager", "director", "lead", "head", "vp"]

/-- Embeds `PortfolioAgent._categorize_role` on an actual string: the
if/elif chain checks developer, analyst, designer, manager in that order
and the first category with a matching keyword wins. -/
def categorizeRoleStr (role : String) : String :=
  let role_lower := strLower role
  if devKeywords.any (fun kw => strContains role_lower kw) then "developer"
  else if analystKeywords.any (fun kw => strContains role_lower kw) then "analyst"
  else if designKeywords.any (fun kw => strContains role_lower kw) then "designer"
  else if managerKeywords.any (fun kw => strContains role_lower kw) then "manager"
  else "default"

/-- Embeds `_categorize_role` on a runtime value (`role.lower()` raises on
non-strings). -/
def categorizeRole (role : Value) : Except String String := do
  let lowered ← role.pyLower
  pure (categorizeRoleStr lowered)

/-- Embeds `_generate_tagline`. -/
def generateTagline (user_data : Value) : Except String Value := do
  let role ← user_data.getD "target_role" (.str "Professional")
  let skills ← user_data.getD "top_skills" (.list [])
  if skills.truthy then do
    let s0 ← pyIndexZero skills
    pure (.str ("Specializing in " ++ s0.pyStr ++ " | " ++ role.pyStr))
  else
    pure (.str ("Passionate " ++ role.pyStr ++ " Building Impactful Solutions"))

/-- Embeds `PortfolioAgent._generate_hero`. -/
def generateHero (data : Value) : Except String Value := do
  let user_data ← data.getD "user_data" (.dict [])
  let style ← data.getD "style" (.str "professional")
  let nameV ← user_data.getD "name" (.str "")
  let titleV ← user_data.getD "target_role" (.str "")
  let tagline ← generateTagline user_data
  let hero : Value := .dict
    [("name", nameV), ("title", titleV), ("tagline", tagline),
     ("cta_primary", .str "View My Work"), ("cta_secondary", .str "Contact Me"),
     ("style", style)]
  pure (.dict [("section", .str "hero"), ("content", hero)])

/-- Embeds `_format_projects`. -/
def formatProjects (user_data : Value) : Except String Value := do
  let projects ← user_data.getD "projects" (.list [])
  let entries ← projects.iterate
  let rows ← entries.mapM fun p => do
    let titleV ← p.getD "name" (.str "")
    let descV ← p.getD "description" (.str "")
    let techV ← p.getD "technologies" (.list [])
    let linkV ← p.getD "url" (.str "")
    let imageV ← p.getD "image" (.str "")
    pure (Value.dict [("title", titleV), ("description", descV),
      ("technologies", techV), ("link", linkV), ("image", imageV)])
  pure (.list rows)

/-- Embeds `PortfolioAgent._categorize_skills` (every skill name lands in
the `technical` bucket; `tools` and `soft` stay empty). -/
def categorizeSkills (skills : Value) : Except String Value := do
  let entries ← skills.iterate
  let names ← entries.mapM fun skill =>
    match skill with
    | .dict _ => skill.getD "name" skill
    | v => Except.ok v
  pure (.dict [("technical", .list names), ("tools", .list []), ("soft", .list [])])

/-- Embeds `_format_skills`. -/
def formatSkills (user_data career_dna : Value) : Except String Value := do
  let skills ← user_data.getD "skills" (.list [])
  let top_skills ← career_dna.getD "strengths" (.list [])
  let highlighted ← pySliceFirstN top_skills 5
  let categories ← categorizeSkills skills
  pure (.dict [("highlighted", highlighted), ("all_skills", skills),
               ("categories", categories)])

/-- Embeds `_format_experience`. -/
def formatExperience (user_data : Value) : Except String Value := do
  let experience ← user_data.getD "experience" (.list [])
  let entries ← experience.iterate
  let rows ← entries.mapM fun e => do
    let titleV ← e.getD "title" (.str "")
    let companyV ← e.getD "company" (.str "")
    let periodV ← e.getD "period" (.str "")
    let bulletsV ← e.getD "bullets" (.list [])
    let highlights ← pySliceFirstN bulletsV 3
    pure (Value.dict [("title", titleV), ("company", companyV),
      ("period", periodV), ("highlights", highlights)])
  pure (.list rows)

/-- Embeds `_format_about`. -/
def formatAbout (user_data : Value) : Except String Value := do
  let summary ← user_data.getD "about" (.str "")
  let interests ← user_data.getD "interests" (.list [])
  let valuesV ← user_data.getD "values" (.list [])
  pure (.dict [("summary", summary), ("interests", interests), ("values", valuesV)])

/-- Embeds `_format_metrics`. -/
def formatMetrics (user_data _career_dna : Value) : Except String Value := do
  let years ← user_data.getD "years_exp" (.str "5+")
  let projects ← user_data.getD "projects" (.list [])
  let nProjects ← projects.pyLen
  let skills ← user_data.getD "skills" (.list [])
  let nSkills ← skills.pyLen
  pure (.list
    [.dict [("label", .str "Years Experience"), ("value", years)],
     .dict [("label", .str "Projects Completed"), ("value", .str (toString nProjects))],
     .dict [("label", .str "Skills"), ("value", .str (toString nSkills))]])

/-- Embeds `_format_contact`. -/
def formatContact (user_data : Value) : Except String Value := do
  let email ← user_data.getD "email" (.str "")
  let linkedin ← user_data.getD "linkedin_url" (.str "")
  let github ← user_data.getD "github_url" (.str "")
  let website ← user_data.getD "website" (.str "")
  pure (.dict [("email", email), ("linkedin", linkedin),
               ("github", github), ("website", website)])

/-- Embeds `PortfolioAgent._generate_sections` (dict assignment keeps the
first-assignment position of a key, as Python dicts do). -/
def generateSections (data : Value) : Except String Value := do
  let user_data ← data.getD "user_data" (.dict [])
  let sections ← data.getD "sections" (.list [])
  let career_dna ← data.getD "career_dna" (.dict [])
  let items ← sections.iterate
  let generated ← items.foldlM (fun (acc : List (String × Value)) sec => do
      if sec.eqStr "hero" then pure acc
      else if sec.eqStr "projects" then do
        let v ← formatProjects user_data
        pure (dictAssign acc "projects" v)
      else if sec.eqStr "skills" then do
        let v ← formatSkills user_data career_dna
        pure (dictAssign acc "skills" v)
      else if sec.eqStr "experience" then do
        let v ← formatExperience user_data
        pure (dictAssign acc "experience" v)
      else if sec.eqStr "about" then do
        let v ← formatAbout user_data
        pure (dictAssign acc "about" v)
      else if sec.eqStr "metrics" then do
        let v ← formatMetrics user_data career_dna
        pure (dictAssign acc "metrics" v)
      else if sec.eqStr "contact" then do
        let v ← formatContact user_data
        pure (dictAssign acc "contact" v)
      else pure acc) []
  pure (.dict [("sections", .dict generated)])

/-- The color palette table of `_generate_layout`. -/
def colorPalettes : Value := .dict
  [("professional", .dict
     [("primary", .str "#2563eb"), ("secondary", .str "#64748b"),
      ("background", .str "#ffffff"), ("text", .str "#1e293b")]),
   ("tech-modern", .dict
     [("primary", .str "#8b5cf6"), ("secondary", .str "#06b6d4"),
      ("background", .str "#0f172a"), ("text", .str "#f1f5f9")]),
   ("creative", .dict
     [("primary", .str "#ec4899"), ("secondary", .str "#f59e0b"),
      ("background", .str "#fdf4ff"), ("text", .str "#1e1b4b")]),
   ("executive", .dict
     [("primary", .str "#0f172a"), ("secondary", .str "#475569"),
      ("background", .str "#f8fafc"), ("text", .str "#0f172a")])]

/-- Embeds `_get_typography` (constant, ignores its argument). -/
def getTypography (_layout_style : Value) : Value := .dict
  [("heading_font", .str "Inter"), ("body_font", .str "Inter"),
   ("code_font", .str "Fira Code")]

/-- Embeds `PortfolioAgent._generate_layout`. -/
def generateLayout (data : Value) : Except String Value := do
  let layout_style ← data.getD "layout_style" (.str "balanced")
  let color_scheme ← data.getD "color_scheme" (.str "professional")
  let fallback ← colorPalettes.subscript "professional"
  let colors ← pyGetByValueKey colorPalettes color_scheme fallback
  pure (.dict
    [("layout_style", layout_style), ("colors", colors),
     ("typography", getTypography layout_style), ("spacing", .str "comfortable")])

/-- Embeds `PortfolioAgent.think`. -/
def thinkImpl (ex : Extra) (input_data : Value) : Except String Value := do
  let user_data ← input_data.getD "user_data" (.dict [])
  let career_dna ← input_data.getD "career_dna" (.dict [])
  let roleV ← user_data.getD "target_role" (.str "")
  let role_category ← categorizeRole roleV
  let defaultLayout ← ex.layout_rules.subscript "default"
  let layout ← ex.layout_rules.getD role_category defaultLayout
  let color_scheme ← layout.subscript "color_scheme"
  let primary_sections ← layout.subscript "primary_sections"
  let layout_style ← layout.subscript "layout_style"
  let actions : List Value :=
    [.dict [("name", .str "generate_hero"),
            ("input", .dict [("user_data", user_data), ("style", color_scheme)])],
     .dict [("name", .str "generate_sections"),
            ("input", .dict [("user_data", user_data),
                             ("sections", primary_sections),
                             ("career_dna", career_dna)])],
     .dict [("name", .str "generate_layout"),
            ("input", .dict [("layout_style", layout_style),
                             ("color_scheme", color_scheme)])]]
  pure (.dict [("actions", .list actions),
               ("strategy", .str "portfolio_generation"),
               ("role_category", .str role_category),
               ("layout", layout)])

/-- Embeds `PortfolioAgent.execute`. -/
def executeImpl (s : AgentCore × Extra) (a : AgentAction) :
    Except String (Value × (AgentCore × Extra)) :=
  if a.name.eqStr "generate_hero" then (generateHero a.input_data).map (fun r => (r, s))
  else if a.name.eqStr "generate_sections" then (generateSections a.input_data).map (fun r => (r, s))
  else if a.name.eqStr "generate_layout" then (generateLayout a.input_data).map (fun r => (r, s))
  else .ok (unknownActionPayload a.name, s)

/-- The `AgentOps` record of a `PortfolioAgent`. -/
def ops : AgentOps Extra :=
  { think := fun s input => thinkImpl s.2 input
    execute := executeImpl }

/-- A freshly constructed `PortfolioAgent(llm_client=None)`. -/
def init : AgentCore × Extra :=
  ({ name := "PortfolioBuilder",
     description := "Builds personalized React portfolios" }, {})

end Portfolio

/-- Python `s.replace(old, new)`; AttributeError on non-strings. -/
def pyReplace (v : Value) (old new : String) : Except String Value :=
  match v with
  | .str s => .ok (.str (s.replace old new))
  | _ => .error s!"'{v.typeName}' object has no attribute 'replace'"

/-- Python `a > b` for the numeric uses in the embedded code. -/
def pyGtNum (a b : Value) : Except String Bool := Value.pyLt b a

/-- Stable descending insertion (a new element goes after every element
with a key at least as large, so equal keys keep their original order —
exactly `sorted(…, reverse=True)` in Python). -/
def insertDescBy {α : Type} (key : α → Rat) (x : α) : List α → List α
  | [] => [x]
  | y :: ys => if key x ≤ key y then y :: insertDescBy key x ys else x :: y :: ys

/-- Python `sorted(l, key=…, reverse=True)` (stable descending sort). -/
def stableSortDesc {α : Type} (key : α → Rat) (l : List α) : List α :=
  l.foldl (fun acc x => insertDescBy key x acc) []

/-! ## OptimizationAgent (`optimization_agent.py`) -/

namespace Optimization

/-- Subclass field `self.optimization_history`. -/
structure Extra : Type where
  optimization_history : List Value := []

/-- Embeds `OptimizationAgent._analyze_feedback`: threshold checks on the
feedback mapping, with `0` defaults for missing metrics. -/
def analyzeFeedback (feedback : Value) : Except String Value := do
  let view_trend ← feedback.getD "profile_views_trend" (.int 0)
  let declining ← view_trend.pyLt (.int 0)
  let headline_needs_update := declining
  let content_needs_refresh := declining
  let skill_clicks ← feedback.getD "skill_click_rate" (.int 0)
  let lowClicks ← skill_clicks.pyLt (.float (mkRat 5 100))
  let skills_need_reorder := lowClicks
  let bounce_rate ← feedback.getD "portfolio_bounce_rate" (.int 0)
  let highBounce ← pyGtNum bounce_rate (.float (mkRat 7 10))
  let portfolio_needs_update := highBounce
  pure (.dict
    [("headline_needs_update", .bool headline_needs_update),
     ("skills_need_reorder", .bool skills_need_reorder),
     ("portfolio_needs_update", .bool portfolio_needs_update),
     ("content_needs_refresh", .bool content_needs_refresh)])

/-- Embeds `OptimizationAgent.think`. -/
def thinkImpl (input_data : Value) : Except String Value := do
  let feedback ← input_data.getD "feedback" (.dict [])
  let current_content ← input_data.getD "current_content" (.dict [])
  let market_trends ← input_data.getD "market_trends" (.dict [])
  let analysis ← analyzeFeedback feedback
  let mut actions : List Value := []
  let hn ← analysis.getD "headline_needs_update" Value.none
  if hn.truthy then do
    let cur ← current_content.getD "headline" Value.none
    let fb ← feedback.getD "headline_metrics" (.dict [])
    let tr ← market_trends.getD "headline_trends" (.dict [])
    actions := actions ++ [.dict [("name", .str "optimize_headline"),
      ("input", .dict [("current", cur), ("feedback", fb), ("trends", tr)])]]
  let sn ← analysis.getD "skills_need_reorder" Value.none
  if sn.truthy then do
    let cur ← current_content.getD "skills" (.list [])
    let md ← market_trends.getD "skill_demand" (.dict [])
    let eng ← feedback.getD "skill_engagement" (.dict [])
    actions := actions ++ [.dict [("name", .str "reorder_skills"),
      ("input", .dict [("current_skills", cur), ("market_demand", md), ("engagement", eng)])]]
  let pn ← analysis.getD "portfolio_needs_update" Value.none
  if pn.truthy then do
    let cur ← current_content.getD "portfolio_layout" Value.none
    let m ← feedback.getD "portfolio_metrics" (.dict [])
    let tr ← market_trends.getD "portfolio_trends" (.dict [])
    actions := actions ++ [.dict [("name", .str "update_portfolio"),
      ("input", .dict [("current_layout", cur), ("engagement_metrics", m), ("trends", tr)])]]
  pure (.dict [("actions", .list actions), ("analysis", analysis),
               ("strategy", .str "continuous_optimization")])

/-- Embeds `_generate_headline_suggestions`. -/
def generateHeadlineSuggestions (current feedback trends : Value) :
    Except String (List Value) := do
  let mut suggestions : List Value := []
  let trending_keywords ← trends.getD "keywords" (.list [])
  if trending_keywords.truthy then do
    let firstThree ← pySliceFirstN trending_keywords 3
    let kws ← firstThree.iterate
    for kw in kws do
      let kwLower ← kw.pyLower
      let curLower ← current.pyLower
      if !(strContains curLower kwLower) then
        suggestions := suggestions ++ [.str (current.pyStr ++ " | " ++ kw.pyStr)]
  let appearances ← feedback.getD "search_appearances" (.int 0)
  let few ← appearances.pyLt (.int 10)
  if few then do
    let replaced ← pyReplace current "|" "•"
    suggestions := suggestions ++ [replaced]
  if suggestions.isEmpty then pure [current] else pure suggestions

/-- Embeds `_rank_suggestions` (score 50, +20 when length ≤ 120, +15 when
a separator occurs; stable descending sort by score). -/
def rankSuggestions (suggestions : List Value) (_feedback : Value) :
    Except String (List Value) := do
  let scored ← suggestions.mapM fun s => do
    let n ← s.pyLen
    let bar ← Value.strIn "|" s
    let dot ← Value.strIn "•" s
    let score : Int := 50 + (if n ≤ 120 then 20 else 0) + (if bar || dot then 15 else 0)
    pure (s, score)
  pure ((stableSortDesc (fun p => (p.2 : Rat)) scored).map Prod.fst)

/-- Embeds `_calculate_confidence`. -/
def calculateConfidence (feedback : Value) : Except String Value := do
  let pv ← feedback.getD "profile_views" (.int 0)
  let b1 ← pyGtNum pv (.int 0)
  let sa ← feedback.getD "search_appearances" (.int 0)
  let b2 ← pyGtNum sa (.int 0)
  let cr ← feedback.getD "connection_requests" (.int 0)
  let b3 ← pyGtNum cr (.int 0)
  let data_points : Int := (if b1 then 1 else 0) + (if b2 then 1 else 0) + (if b3 then 1 else 0)
  pure (.float (min ((data_points : Rat) * mkRat 33 100) 1))

/-- Embeds `OptimizationAgent._optimize_headline`. -/
def optimizeHeadline (data : Value) : Except String Value := do
  let current ← data.getD "current" (.str "")
  let feedback ← data.getD "feedback" (.dict [])
  let trends ← data.getD "trends" (.dict [])
  let suggestions ← generateHeadlineSuggestions current feedback trends
  let ranked ← rankSuggestions suggestions feedback
  let confidence ← calculateConfidence feedback
  pure (.dict
    [("optimization_type", .str "headline"),
     ("current", current),
     ("suggestions", .list ranked),
     ("recommended", if ranked.isEmpty then current else ranked.headD Value.none),
     ("confidence", confidence)])

/-- Embeds `_calculate_skill_score` (float weights become exact
rationals in the model). -/
def calculateSkillScore (skill : String) (market_demand engagement : Value) :
    Except String Rat := do
  let d ← market_demand.getD (strLower skill) (.int 50)
  let e ← engagement.getD (strLower skill) (.int 50)
  match d.toRat?, e.toRat? with
  | some x, some y => pure (x * mkRat 6 10 + y * mkRat 4 10)
  | _, _ => Except.error "unsupported operand type(s) for *"

/-- Embeds `OptimizationAgent._reorder_skills`.  The model's dicts are
string-keyed, so a non-string skill name (which the source would accept
as a `scores` key) is surfaced as a fault here; no skill list in the
repository takes that shape. -/
def reorderSkills (data : Value) : Except String Value := do
  let current_skills ← data.getD "current_skills" (.list [])
  let market_demand ← data.getD "market_demand" (.dict [])
  let engagement ← data.getD "engagement" (.dict [])
  let entries ← current_skills.iterate
  let scored ← entries.mapM fun skill => do
    let nameV ←
      match skill with
      | .str s => pure (Value.str s)
      | v => v.getD "name" (.str "")
    let nameStr ←
      match nameV with
      | .str s => pure s
      | v => Except.error s!"'{v.typeName}' object has no attribute 'lower'"
    let score ← calculateSkillScore nameStr market_demand engagement
    pure (nameStr, score)
  let sorted := stableSortDesc Prod.snd scored
  let scoresDict := sorted.foldl (fun acc p => dictAssign acc p.1 (.float p.2)) []
  pure (.dict
    [("optimization_type", .str "skills"),
     ("original_order", current_skills),
     ("optimized_order", .list (sorted.map fun p => .str p.1)),
     ("scores", .dict scoresDict)])

/-- Embeds `_analyze_section_performance`. -/
def analyzeSectionPerformance (metrics : Value) : Except String Value := do
  let heroTime ← metrics.getD "hero_time" (.int 5)
  let projectClicks ← metrics.getD "project_clicks" (.int 0)
  let skillViews ← metrics.getD "skill_views" (.int 0)
  let contactClicks ← metrics.getD "contact_clicks" (.int 0)
  pure (.dict
    [("hero", .dict [("scroll_depth", .int 100), ("time_spent", heroTime)]),
     ("projects", .dict [("scroll_depth", .int 80), ("engagement", projectClicks)]),
     ("skills", .dict [("scroll_depth", .int 70), ("engagement", skillViews)]),
     ("contact", .dict [("scroll_depth", .int 40), ("conversions", contactClicks)])])

/-- Embeds `_generate_layout_recommendations`. -/
def generateLayoutRecommendations (_current performance _trends : Value) :
    Except String (List Value) := do
  let projects ← performance.getD "projects" (.dict [])
  let depth ← projects.getD "scroll_depth" (.int 0)
  let lowDepth ← depth.pyLt (.int 50)
  let contact ← performance.getD "contact" (.dict [])
  let conv ← contact.getD "conversions" (.int 0)
  let lowConv ← conv.pyLt (.int 1)
  pure <|
    (if lowDepth then
      [Value.dict [("type", .str "reorder"),
        ("action", .str "Move projects section higher"),
        ("reason", .str "Low scroll depth for projects section")]]
     else [])
    ++ (if lowConv then
      [Value.dict [("type", .str "enhance"),
        ("action", .str "Add floating CTA button"),
        ("reason", .str "Low contact conversions")]]
     else [])

/-- Embeds `OptimizationAgent._update_portfolio`. -/
def updatePortfolio (data : Value) : Except String Value := do
  let current_layout ← data.getD "current_layout" (.dict [])
  let metrics ← data.getD "engagement_metrics" (.dict [])
  let trends ← data.getD "trends" (.dict [])
  let section_performance ← analyzeSectionPerformance metrics
  let recommendations ← generateLayoutRecommendations current_layout section_performance trends
  pure (.dict
    [("optimization_type", .str "portfolio"),
     ("current_layout", current_layout),
     ("section_performance", section_performance),
     ("recommendations", .list recommendations)])

/-- Embeds `_generate_headline_variants`. -/
def generateHeadlineVariants (current : Value) : Except String (List Value) := do
  let v1 := Value.str ("🚀 " ++ current.pyStr)
  let hasBar ← Value.strIn "|" current
  let v2 ← if hasBar then do
      let r ← pyReplace current "|" "•"
      pure [r]
    else pure []
  let words ← current.pySplitWs
  let v3 := if 6 < words.length
    then [Value.str (String.intercalate " " (words.take 6))] else []
  pure ([v1] ++ v2 ++ v3)

/-- Embeds `OptimizationAgent._generate_ab_test`. -/
def generateAbTest (data : Value) : Except String Value := do
  let content_type ← data.getD "content_type" (.str "headline")
  let current ← data.getD "current" (.str "")
  let variants ←
    if content_type.eqStr "headline" then generateHeadlineVariants current
    else pure []
  pure (.dict
    [("test_type", .str (content_type.pyStr ++ "_ab_test")),
     ("control", current),
     ("variants", .list variants),
     ("recommended_duration", .str "7 days")])

/-- Embeds `_record_optimization`; `datetime.now().isoformat()` is
modelled as the ambient parameter `now`. -/
def recordOptimization (now : String) (ex : Extra) (actionName : Value) (result : Value) :
    Except String Extra := do
  let summary ← result.getD "optimization_type" (.str "unknown")
  pure { ex with optimization_history := ex.optimization_history ++
    [.dict [("timestamp", .str now), ("action", actionName), ("result_summary", summary)]] }

/-- The `if handler:` arm of `OptimizationAgent.execute`: run the
dispatched handler, record the optimization, return the result. -/
def execRecorded (now : String) (s : AgentCore × Extra) (a : AgentAction)
    (handler : Value → Except String Value) :
    Except String (Value × (AgentCore × Extra)) :=
  match handler a.input_data with
  | .error e => .error e
  | .ok result =>
    match recordOptimization now s.2 a.name result with
    | .error e => .error e
    | .ok ex => .ok (result, (s.1, ex))

/-- Embeds `OptimizationAgent.execute`: dispatch by name, record the
optimization on a normal handler return; unknown names yield the error
payload with no state change. -/
def executeImpl (now : String) (s : AgentCore × Extra) (a : AgentAction) :
    Except String (Value × (AgentCore × Extra)) :=
  if a.name.eqStr "optimize_headline" then execRecorded now s a optimizeHeadline
  else if a.name.eqStr "reorder_skills" then execRecorded now s a reorderSkills
  else if a.name.eqStr "update_portfolio" then execRecorded now s a updatePortfolio
  else if a.name.eqStr "generate_ab_test" then execRecorded now s a generateAbTest
  else .ok (unknownActionPayload a.name, s)

/-- The `AgentOps` record of an `OptimizationAgent`, parametrized by the
wall-clock reading used for history timestamps. -/
def ops (now : String) : AgentOps Extra :=
  { think := fun _ input => thinkImpl input
    execute := executeImpl now }

/-- A freshly constructed `OptimizationAgent(llm_client=None)`. -/
def init : AgentCore × Extra :=
  ({ name := "OptimizationAgent",
     description := "Optimizes content based on feedback" }, {})

end Optimization

/-- Python `==` on runtime values, as used in `_find_opportunities`.
Numbers compare by value across `bool`/`int`/`float`; sequences compare
pointwise.  The one approximation: dict comparison here is pointwise in
entry order (Python also equates dicts whose insertion orders differ —
the single call site compares role strings, where this cannot matter). -/
def pyEq : Value → Value → Bool
  | .none, .none => true
  | .str a, .str b => a = b
  | .list as, .list bs => pyEqList as bs
  | .dict as, .dict bs => pyEqEntries as bs
  | a, b =>
    match a.toRat?, b.toRat? with
    | some x, some y => x = y
    | _, _ => false
where
  pyEqList : List Value → List Value → Bool
    | [], [] => true
    | a :: as, b :: bs => pyEq a b && pyEqList as bs
    | _, _ => false
  pyEqEntries : List (String × Value) → List (String × Value) → Bool
    | [], [] => true
    | (k, v) :: as, (k', v') :: bs => k = k' && pyEq v v' && pyEqEntries as bs
    | _, _ => false

/-! ## OrchestratorAgent (`orchestrator_agent.py`) -/

namespace Orchestrator

/-- Sub-agent instances created in `OrchestratorAgent.__init__` (the
orchestrator owns one of each; each manages its own core state). -/
structure Extra : Type where
  profile_analyzer : AgentCore × ProfileAnalyzer.Extra := ProfileAnalyzer.init
  content_generator : AgentCore × ContentGenerator.Extra := ContentGenerator.init
  portfolio_builder : AgentCore × Portfolio.Extra := Portfolio.init
  optimization_agent : AgentCore × Optimization.Extra := Optimization.init

/-- The static workflow table of `OrchestratorAgent.think`. -/
def workflows : Value := .dict
  [("full_optimization", .list
     [.str "analyze_profile", .str "build_career_dna",
      .str "generate_content", .str "build_portfolio"]),
   ("profile_only", .list [.str "analyze_profile", .str "generate_content"]),
   ("portfolio_only", .list [.str "build_career_dna", .str "build_portfolio"]),
   ("optimize", .list [.str "analyze_feedback", .str "apply_optimizations"])]

/-- Embeds `OrchestratorAgent.think`: select a workflow by request type
(unrecognized tags fall back to `full_optimization`) and emit one action
per step, each carrying the whole input as its payload. -/
def thinkImpl (input_data : Value) : Except String Value := do
  let request_type ← input_data.getD "request_type" (.str "full_optimization")
  let fullOpt ← workflows.subscript "full_optimization"
  let workflow ← pyGetByValueKey workflows request_type fullOpt
  let steps ← workflow.iterate
  let actions := steps.map fun step =>
    Value.dict [("name", step), ("input", input_data)]
  pure (.dict [("actions", .list actions), ("workflow", workflow),
               ("strategy", request_type)])

/-- Embeds `OrchestratorAgent._run_profile_analysis`: delegate to the
profile analyzer's whole `run` and wrap its outcome. -/
def runProfileAnalysis (s : AgentCore × Extra) (data : Value) :
    Except String (Value × (AgentCore × Extra)) := do
  let pd ← data.getD "profile_data" (.dict [])
  let (pa', outcome) := runAgent ProfileAnalyzer.ops s.2.profile_analyzer
    (.dict [("profile_data", pd), ("analysis_type", .str "full")])
  pure (.dict [("step", .str "profile_analysis"), ("result", outcome)],
        (s.1, { s.2 with profile_analyzer := pa' }))

/-- Embeds `_extract_strengths`. -/
def extractStrengths (user_data _analysis : Value) : Except String (List Value) := do
  let skills ← user_data.getD "skills" (.list [])
  let firstFive ← pySliceFirstN skills 5
  let entries ← firstFive.iterate
  entries.mapM fun skill =>
    match skill with
    | .dict _ => skill.getD "name" skill
    | v => Except.ok v

/-- Embeds `_identify_gaps`. -/
def identifyGaps (_user_data analysis : Value) : Except String (List Value) := do
  let results ← analysis.getD "results" (.list [])
  let entries ← results.iterate
  let gaps ← entries.foldlM (fun (acc : List Value) result =>
    match result with
    | .dict _ => do
      let recs ← result.getD "recommendations" (.list [])
      let items ← recs.iterate
      pure (acc ++ items)
    | _ => pure acc) []
  pure (gaps.take 5)

/-- Embeds `_find_opportunities`. -/
def findOpportunities (user_data : Value) : Except String (List Value) := do
  let target_role ← user_data.getD "target_role" (.str "")
  let current_role ← user_data.getD "current_role" (.str "")
  if !(pyEq target_role current_role) then
    pure [.str ("Transition to " ++ target_role.pyStr)]
  else
    pure []

/-- Embeds `_determine_focus` (a constant recommendation list). -/
def determineFocus (_user_data : Value) : List Value :=
  [.str "Optimize LinkedIn headline",
   .str "Enhance project descriptions",
   .str "Build thought leadership content"]

/-- Embeds `OrchestratorAgent._build_career_dna`. -/
def buildCareerDna (data : Value) : Except String Value := do
  let user_data ← data.getD "user_data" (.dict [])
  let profile_analysis ← data.getD "profile_analysis" (.dict [])
  let strengths ← extractStrengths user_data profile_analysis
  let gaps ← identifyGaps user_data profile_analysis
  let opportunities ← findOpportunities user_data
  let career_dna : Value := .dict
    [("strengths", .list strengths), ("gaps", .list gaps),
     ("opportunities", .list opportunities),
     ("recommended_focus", .list (determineFocus user_data))]
  pure (.dict [("step", .str "career_dna"), ("result", career_dna)])

/-- Embeds `OrchestratorAgent._generate_content`. -/
def generateContent (s : AgentCore × Extra) (data : Value) :
    Except String (Value × (AgentCore × Extra)) := do
  let ud ← data.getD "user_data" (.dict [])
  let mp ← data.getD "market_patterns" (.dict [])
  let (cg', outcome) := runAgent ContentGenerator.ops s.2.content_generator
    (.dict [("content_type", .str "all"), ("user_data", ud), ("market_patterns", mp)])
  pure (.dict [("step", .str "content_generation"), ("result", outcome)],
        (s.1, { s.2 with content_generator := cg' }))

/-- Embeds `OrchestratorAgent._build_portfolio`. -/
def buildPortfolio (s : AgentCore × Extra) (data : Value) :
    Except String (Value × (AgentCore × Extra)) := do
  let ud ← data.getD "user_data" (.dict [])
  let dna ← data.getD "career_dna" (.dict [])
  let (pb', outcome) := runAgent Portfolio.ops s.2.portfolio_builder
    (.dict [("user_data", ud), ("career_dna", dna)])
  pure (.dict [("step", .str "portfolio_building"), ("result", outcome)],
        (s.1, { s.2 with portfolio_builder := pb' }))

/-- Embeds `OrchestratorAgent._analyze_feedback`. -/
def analyzeFeedbackStep (now : String) (s : AgentCore × Extra) (data : Value) :
    Except String (Value × (AgentCore × Extra)) := do
  let fb ← data.getD "feedback" (.dict [])
  let cc ← data.getD "current_content" (.dict [])
  let mt ← data.getD "market_trends" (.dict [])
  let (oa', outcome) := runAgent (Optimization.ops now) s.2.optimization_agent
    (.dict [("feedback", fb), ("current_content", cc), ("market_trends", mt)])
  pure (.dict [("step", .str "feedback_analysis"), ("result", outcome)],
        (s.1, { s.2 with optimization_agent := oa' }))

/-- Embeds `OrchestratorAgent._apply_optimizations`. -/
def applyOptimizations (data : Value) : Except String Value := do
  let optimizations ← data.getD "optimizations" (.list [])
  let opts ← optimizations.iterate
  let applied ← opts.foldlM (fun (acc : List Value) opt => do
    let auto ← opt.getD "auto_apply" (.bool false)
    pure (if auto.truthy then acc ++ [opt] else acc)) []
  let pending ← opts.foldlM (fun (acc : List Value) o => do
    let auto ← o.getD "auto_apply" Value.none
    pure (if !auto.truthy then acc ++ [o] else acc)) []
  pure (.dict [("step", .str "apply_optimizations"),
               ("applied", .list applied),
               ("pending_approval", .list pending)])

/-- Embeds `OrchestratorAgent.execute`. -/
def executeImpl (now : String) (s : AgentCore × Extra) (a : AgentAction) :
    Except String (Value × (AgentCore × Extra)) :=
  if a.name.eqStr "analyze_profile" then runProfileAnalysis s a.input_data
  else if a.name.eqStr "build_career_dna" then (buildCareerDna a.input_data).map (fun r => (r, s))
  else if a.name.eqStr "generate_content" then generateContent s a.input_data
  else if a.name.eqStr "build_portfolio" then buildPortfolio s a.input_data
  else if a.name.eqStr "analyze_feedback" then analyzeFeedbackStep now s a.input_data
  else if a.name.eqStr "apply_optimizations" then (applyOptimizations a.input_data).map (fun r => (r, s))
  else .ok (unknownActionPayload a.name, s)

/-- The `AgentOps` record of an `OrchestratorAgent` (the wall-clock
parameter is threaded to the optimization sub-agent's history records). -/
def ops (now : String) : AgentOps Extra :=
  { think := fun _ input => thinkImpl input
    execute := executeImpl now }

/-- A freshly constructed `OrchestratorAgent(llm_client=None)`. -/
def init : AgentCore × Extra :=
  ({ name := "Orchestrator",
     description := "Coordinates all career optimization agents" }, {})

end Orchestrator

/-! ## Projection helpers used to state concrete properties -/

/-- Field lookup on a dict value (no exception: `Option`-valued). -/
def Value.field (v : Value) (k : String) : Option Value :=
  match v with
  | .dict es => Value.lookupEntry es k
  | _ => Option.none

/-- String-typed field lookup. -/
def Value.fieldStr (v : Value) (k : String) : Option String :=
  match v.field k with
  | some (.str s) => some s
  | _ => Option.none

/-- Bool-typed field lookup. -/
def Value.fieldBool (v : Value) (k : String) : Option Bool :=
  match v.field k with
  | some (.bool b) => some b
  | _ => Option.none

/-- The `results` list of a run outcome. -/
def resultsList (v : Value) : Option (List Value) :=
  match v.field "results" with
  | some (.list l) => some l
  | _ => Option.none

/-- The first entry of a run outcome's `results` list. -/
def firstResult (v : Value) : Option Value :=
  (resultsList v).bind List.head?

/-- The ordered action names requested by a `think` result. -/
def thoughtActionNames (e : Except String Value) : Option (List String) :=
  match e with
  | .ok t =>
    match t.field "actions" with
    | some (.list l) => l.mapM fun a => a.fieldStr "name"
    | _ => Option.none
  | .error _ => Option.none

/-- The number of actions requested by a `think` result. -/
def thoughtActionCount (e : Except String Value) : Option Nat :=
  (thoughtActionNames e).map List.length

/-- The `workflow` step list of an orchestrator `think` result. -/
def workflowSteps (e : Except String Value) : Option (List String) :=
  match e with
  | .ok t =>
    match t.field "workflow" with
    | some (.list l) => l.mapM fun a =>
        match a with
        | .str s => some s
        | _ => Option.none
    | _ => Option.none
  | .error _ => Option.none

/-- A flag of the `analysis` mapping inside an optimization `think` result. -/
def analysisFlag (e : Except String Value) (k : String) : Option Bool :=
  match e with
  | .ok t => (t.field "analysis").bind fun a => a.fieldBool k
  | .error _ => Option.none

/-- Reduction of a memory entry performed by `get_memory_context`. -/
def memoryEntryView (m : AgentMessage) : Value :=
  .dict [("role", .str m.role), ("content", .str m.content)]

/-! ## Concrete inputs used by the claims -/

/-- Input whose `profile_data` field is a non-mapping, so the profile
analyzer's `think` raises `AttributeError` on `profile_data.get`. -/
def inputBadProfile : Value := .dict [("profile_data", .int 5)]

/-- Orchestrator input: `profile_only` workflow over a non-mapping
`profile_data` (the nested profile analysis fails, the rest succeeds). -/
def inputOrchestratorNested : Value :=
  .dict [("request_type", .str "profile_only"), ("profile_data", .int 5)]

/-- Profile data whose `headline` is an int: `think` succeeds (emitting
four actions) but the first handler faults on `headline.split()`. -/
def inputIntHeadline : Value :=
  .dict [("profile_data", .dict [("headline", .int 5)])]

/-- The feedback scenario of the optimization claim. -/
def inputViewsDecline : Value :=
  .dict [("feedback", .dict [("profile_views_trend", .int (-5))])]

/-- The end-to-end headline generation scenario. -/
def inputHeadlineScenario : Value :=
  .dict [("content_type", .str "headline"),
         ("user_data", .dict
           [("target_role", .str "Data Scientist"),
            ("industry", .str "Finance"),
            ("top_skills", .list [.str "Python", .str "SQL"]),
            ("value_proposition", .str "driving growth")])]

/-! ## General lemmas about the shared control loop -/

@[simp]
theorem setAgentState_fst_name {ε : Type} (s : AgentCore × ε) (st : AgentState) :
    (setAgentState s st).1.name = s.1.name := rfl

@[simp]
theorem setAgentState_fst_state {ε : Type} (s : AgentCore × ε) (st : AgentState) :
    (setAgentState s st).1.state = st := rfl

@[simp]
theorem setAgentState_fst_memory {ε : Type} (s : AgentCore × ε) (st : AgentState) :
    (setAgentState s st).1.memory = s.1.memory := rfl

@[simp]
theorem setAgentState_fst_history {ε : Type} (s : AgentCore × ε) (st : AgentState) :
    (setAgentState s st).1.actionsHistory = s.1.actionsHistory := rfl

/-- Unpacking a successful `Except.map (·, s)` used by the stateless
`execute` implementations. -/
theorem map_pair_ok {σ : Type} {e : Except String Value} {s t : σ} {r : Value}
    (h : (e.map fun v => (v, s)) = .ok (r, t)) : e = .ok r ∧ t = s := by
  cases e with
  | ok v =>
    simp only [Except.map, Except.ok.injEq, Prod.mk.injEq] at h
    exact ⟨by rw [h.1], h.2.symm⟩
  | error msg => simp [Except.map] at h

/-- The control loop never touches the agent's memory (given that the
agent's `execute` does not). -/
theorem execLoop_memory {ε : Type} (ops : AgentOps ε)
    (hexec : ∀ t a r t', ops.execute t a = .ok (r, t') → t'.1.memory = t.1.memory) :
    ∀ (actions : List Value) (s : AgentCore × ε) (acc : List Value),
      (execLoop ops s actions acc).1.1.memory = s.1.memory := by
  intro actions
  induction actions with
  | nil => intro s acc; rfl
  | cons ad rest ih =>
    intro s acc
    unfold execLoop
    cases hn : ad.subscript "name" with
    | error e => simp only [hn]
    | ok nm =>
      cases hi : ad.getD "input" (.dict []) with
      | error e => simp only [hn, hi]
      | ok inp =>
        cases hx : ops.execute s { name := nm, input_data := inp } with
        | error e => simp only [hn, hi, hx]
        | ok p =>
          obtain ⟨r, s'⟩ := p
          have hm := hexec s _ r s' hx
          simp only [hn, hi, hx]
          rw [ih]
          simpa using hm

/-- The control loop only appends to the action history, and every
appended record is completed, output-populated and error-free (given
that the agent's `execute` leaves the history alone, as every concrete
agent of the repository does). -/
theorem execLoop_history {ε : Type} (ops : AgentOps ε)
    (hexec : ∀ t a r t', ops.execute t a = .ok (r, t') →
      t'.1.actionsHistory = t.1.actionsHistory) :
    ∀ (actions : List Value) (s : AgentCore × ε) (acc : List Value),
      ∃ recs, (execLoop ops s actions acc).1.1.actionsHistory
          = s.1.actionsHistory ++ recs ∧
        ∀ rec ∈ recs, rec.status = "completed" ∧
          (∃ o, rec.output_data = some o) ∧ rec.error = Option.none := by
  intro actions
  induction actions with
  | nil => intro s acc; exact ⟨[], by simp [execLoop], by simp⟩
  | cons ad rest ih =>
    intro s acc
    unfold execLoop
    cases hn : ad.subscript "name" with
    | error e => exact ⟨[], by simp only [hn]; simp, by simp⟩
    | ok nm =>
      cases hi : ad.getD "input" (.dict []) with
      | error e => exact ⟨[], by simp only [hn, hi]; simp, by simp⟩
      | ok inp =>
        cases hx : ops.execute s { name := nm, input_data := inp } with
        | error e => exact ⟨[], by simp only [hn, hi, hx]; simp, by simp⟩
        | ok p =>
          obtain ⟨r, s'⟩ := p
          have hh := hexec s _ r s' hx
          obtain ⟨recs, hrecs, hprops⟩ :=
            ih ({ s'.1 with actionsHistory := s'.1.actionsHistory ++
                  [{ name := nm, input_data := inp,
                     output_data := some r, status := "completed",
                     error := Option.none }] }, s'.2) (acc ++ [r])
          refine ⟨{ name := nm, input_data := inp, output_data := some r,
                    status := "completed", error := Option.none } :: recs, ?_, ?_⟩
          · simp only [hn, hi, hx]
            rw [hrecs]
            simp [hh]
          · intro rec hrec
            rcases List.mem_cons.mp hrec with h | h
            · subst h; exact ⟨rfl, ⟨r, rfl⟩, rfl⟩
            · exact hprops rec h

/-- Memory preservation lifted to `run`. -/
theorem runAgent_memory {ε : Type} (ops : AgentOps ε)
    (hexec : ∀ t a r t', ops.execute t a = .ok (r, t') → t'.1.memory = t.1.memory)
    (s : AgentCore × ε) (input : Value) :
    (runAgent ops s input).1.1.memory = s.1.memory := by
  unfold runAgent
  cases ht : ops.think (setAgentState s .thinking) input with
  | error e => simp only [ht]; simp
  | ok thought =>
    cases hg : thought.getD "actions" (.list []) with
    | error e => simp only [ht, hg]; simp
    | ok actionsV =>
      cases hit : actionsV.iterate with
      | error e => simp only [ht, hg, hit]; simp
      | ok actions =>
        rcases hl : execLoop ops (setAgentState (setAgentState s .thinking) .executing)
            actions [] with ⟨s3, res⟩
        have h3 : s3.1.memory = s.1.memory := by
          have := execLoop_memory ops hexec actions
            (setAgentState (setAgentState s .thinking) .executing) []
          rw [hl] at this
          simpa using this
        cases res with
        | error e => simp only [ht, hg, hit, hl]; simpa using h3
        | ok results => simp only [ht, hg, hit, hl]; simpa using h3

/-- History discipline lifted to `run`. -/
theorem runAgent_history {ε : Type} (ops : AgentOps ε)
    (hexec : ∀ t a r t', ops.execute t a = .ok (r, t') →
      t'.1.actionsHistory = t.1.actionsHistory)
    (s : AgentCore × ε) (input : Value) :
    ∃ recs, (runAgent ops s input).1.1.actionsHistory
        = s.1.actionsHistory ++ recs ∧
      ∀ rec ∈ recs, rec.status = "completed" ∧
        (∃ o, rec.output_data = some o) ∧ rec.error = Option.none := by
  unfold runAgent
  cases ht : ops.think (setAgentState s .thinking) input with
  | error e => exact ⟨[], by simp only [ht]; simp, by simp⟩
  | ok thought =>
    cases hg : thought.getD "actions" (.list []) with
    | error e => exact ⟨[], by simp only [ht, hg]; simp, by simp⟩
    | ok actionsV =>
      cases hit : actionsV.iterate with
      | error e => exact ⟨[], by simp only [ht, hg, hit]; simp, by simp⟩
      | ok actions =>
        rcases hl : execLoop ops (setAgentState (setAgentState s .thinking) .executing)
            actions [] with ⟨s3, res⟩
        obtain ⟨recs, hrecs, hprops⟩ := execLoop_history ops hexec actions
          (setAgentState (setAgentState s .thinking) .executing) []
        rw [hl] at hrecs
        cases res with
        | error e => exact ⟨recs, by simp only [ht, hg, hit, hl]; simpa using hrecs, hprops⟩
        | ok results => exact ⟨recs, by simp only [ht, hg, hit, hl]; simpa using hrecs, hprops⟩

/-- Embeds nothing new: the profile analyzer's `execute` returns its
state unchanged whenever it returns at all. -/
theorem profileAnalyzer_execute_state (s : AgentCore × ProfileAnalyzer.Extra)
    (a : AgentAction) (r : Value) (t : AgentCore × ProfileAnalyzer.Extra)
    (h : ProfileAnalyzer.executeImpl s a = .ok (r, t)) : t = s := by
  unfold ProfileAnalyzer.executeImpl at h
  split at h
  · exact (map_pair_ok h).2
  split at h
  · exact (map_pair_ok h).2
  split at h
  · exact (map_pair_ok h).2
  split at h
  · exact (map_pair_ok h).2
  · simp only [Except.ok.injEq, Prod.mk.injEq] at h
    exact h.2.symm

/-- The content generator's `execute` returns its state unchanged. -/
theorem contentGenerator_execute_state (s : AgentCore × ContentGenerator.Extra)
    (a : AgentAction) (r : Value) (t : AgentCore × ContentGenerator.Extra)
    (h : ContentGenerator.executeImpl s a = .ok (r, t)) : t = s := by
  unfold ContentGenerator.executeImpl at h
  split at h
  · exact (map_pair_ok h).2
  split at h
  · exact (map_pair_ok h).2
  split at h
  · exact (map_pair_ok h).2
  · simp only [Except.ok.injEq, Prod.mk.injEq] at h
    exact h.2.symm

/-- The portfolio builder's `execute` returns its state unchanged. -/
theorem portfolio_execute_state (s : AgentCore × Portfolio.Extra)
    (a : AgentAction) (r : Value) (t : AgentCore × Portfolio.Extra)
    (h : Portfolio.executeImpl s a = .ok (r, t)) : t = s := by
  unfold Portfolio.executeImpl at h
  split at h
  · exact (map_pair_ok h).2
  split at h
  · exact (map_pair_ok h).2
  split at h
  · exact (map_pair_ok h).2
  · simp only [Except.ok.injEq, Prod.mk.injEq] at h
    exact h.2.symm

/-- Unpacking a successful `execRecorded`: the shared core comes back
untouched. -/
theorem execRecorded_core (now : String) (s : AgentCore × Optimization.Extra)
    (a : AgentAction) (handler : Value → Except String Value)
    (r : Value) (t : AgentCore × Optimization.Extra)
    (h : Optimization.execRecorded now s a handler = .ok (r, t)) : t.1 = s.1 := by
  unfold Optimization.execRecorded at h
  split at h
  · exact Except.noConfusion h
  · split at h
    · exact Except.noConfusion h
    · simp only [Except.ok.injEq, Prod.mk.injEq] at h
      rw [← h.2]

/-- The optimization agent's `execute` never touches the shared core
(it may only append to `optimization_history`). -/
theorem optimization_execute_core (now : String) (s : AgentCore × Optimization.Extra)
    (a : AgentAction) (r : Value) (t : AgentCore × Optimization.Extra)
    (h : Optimization.executeImpl now s a = .ok (r, t)) : t.1 = s.1 := by
  unfold Optimization.executeImpl at h
  split at h
  · exact execRecorded_core _ _ _ _ _ _ h
  split at h
  · exact execRecorded_core _ _ _ _ _ _ h
  split at h
  · exact execRecorded_core _ _ _ _ _ _ h
  split at h
  · exact execRecorded_core _ _ _ _ _ _ h
  · simp only [Except.ok.injEq, Prod.mk.injEq] at h
    rw [← h.2]

/-- Each orchestrator step handler that delegates to a sub-agent returns
the orchestrator's own core untouched (only the sub-agent slot inside
`Extra` changes).  Profile-analysis step. -/
theorem runProfileAnalysis_core (s : AgentCore × Orchestrator.Extra) (data r : Value)
    (t : AgentCore × Orchestrator.Extra)
    (h : Orchestrator.runProfileAnalysis s data = .ok (r, t)) : t.1 = s.1 := by
  unfold Orchestrator.runProfileAnalysis at h
  cases hg : data.getD "profile_data" (.dict []) with
  | error e =>
    rw [hg] at h
    simp only [Bind.bind, Except.bind] at h
    exact Except.noConfusion h
  | ok pd =>
    rw [hg] at h
    simp only [Bind.bind, Except.bind, pure, Except.pure, Except.ok.injEq,
      Prod.mk.injEq] at h
    rw [← h.2]

/-- Content-generation step preserves the orchestrator core. -/
theorem generateContent_core (s : AgentCore × Orchestrator.Extra) (data r : Value)
    (t : AgentCore × Orchestrator.Extra)
    (h : Orchestrator.generateContent s data = .ok (r, t)) : t.1 = s.1 := by
  unfold Orchestrator.generateContent at h
  cases hg : data.getD "user_data" (.dict []) with
  | error e =>
    rw [hg] at h
    simp only [Bind.bind, Except.bind] at h
    exact Except.noConfusion h
  | ok ud =>
    rw [hg] at h
    simp only [Bind.bind, Except.bind] at h
    cases hm : data.getD "market_patterns" (.dict []) with
    | error e =>
      rw [hm] at h
      exact Except.noConfusion h
    | ok mp =>
      rw [hm] at h
      simp only [pure, Except.pure, Except.ok.injEq, Prod.mk.injEq] at h
      rw [← h.2]

/-- Portfolio-building step preserves the orchestrator core. -/
theorem buildPortfolio_core (s : AgentCore × Orchestrator.Extra) (data r : Value)
    (t : AgentCore × Orchestrator.Extra)
    (h : Orchestrator.buildPortfolio s data = .ok (r, t)) : t.1 = s.1 := by
  unfold Orchestrator.buildPortfolio at h
  cases hg : data.getD "user_data" (.dict []) with
  | error e =>
    rw [hg] at h
    simp only [Bind.bind, Except.bind] at h
    exact Except.noConfusion h
  | ok ud =>
    rw [hg] at h
    simp only [Bind.bind, Except.bind] at h
    cases hm : data.getD "career_dna" (.dict []) with
    | error e =>
      rw [hm] at h
      exact Except.noConfusion h
    | ok dna =>
      rw [hm] at h
      simp only [pure, Except.pure, Except.ok.injEq, Prod.mk.injEq] at h
      rw [← h.2]

/-- Feedback-analysis step preserves the orchestrator core. -/
theorem analyzeFeedbackStep_core (now : String) (s : AgentCore × Orchestrator.Extra)
    (data r : Value) (t : AgentCore × Orchestrator.Extra)
    (h : Orchestrator.analyzeFeedbackStep now s data = .ok (r, t)) : t.1 = s.1 := by
  unfold Orchestrator.analyzeFeedbackStep at h
  cases hg : data.getD "feedback" (.dict []) with
  | error e =>
    rw [hg] at h
    simp only [Bind.bind, Except.bind] at h
    exact Except.noConfusion h
  | ok fb =>
    rw [hg] at h
    simp only [Bind.bind, Except.bind] at h
    cases hc : data.getD "current_content" (.dict []) with
    | error e =>
      rw [hc] at h
      exact Except.noConfusion h
    | ok cc =>
      rw [hc] at h
      simp only [Bind.bind, Except.bind] at h
      cases hm : data.getD "market_trends" (.dict []) with
      | error e =>
        rw [hm] at h
        exact Except.noConfusion h
      | ok mt =>
        rw [hm] at h
        simp only [pure, Except.pure, Except.ok.injEq, Prod.mk.injEq] at h
        rw [← h.2]

/-- The orchestrator's `execute` never touches its own core fields. -/
theorem orchestrator_execute_core (now : String) (s : AgentCore × Orchestrator.Extra)
    (a : AgentAction) (r : Value) (t : AgentCore × Orchestrator.Extra)
    (h : Orchestrator.executeImpl now s a = .ok (r, t)) : t.1 = s.1 := by
  unfold Orchestrator.executeImpl at h
  split at h
  · exact runProfileAnalysis_core _ _ _ _ h
  split at h
  · exact congrArg Prod.fst (map_pair_ok h).2
  split at h
  · exact generateContent_core _ _ _ _ h
  split at h
  · exact buildPortfolio_core _ _ _ _ h
  split at h
  · exact analyzeFeedbackStep_core _ _ _ _ _ h
  split at h
  · exact congrArg Prod.fst (map_pair_ok h).2
  · simp only [Except.ok.injEq, Prod.mk.injEq] at h
    rw [← h.2]

/-! ## Claim theorems -/

/-- C1: for every agent and every input, `run` never raises: it returns
either the success outcome `{status: "success", agent, results, thought}`
with the state set to Completed, or — in particular whenever `think`
raises — the error outcome `{status: "error", agent, error: message}`
(which by construction carries exactly those three fields and no partial
results) with the state set to Error; and a fault from `execute` abandons
the loop immediately at the faulting action. -/
theorem run_never_raises {ε : Type} (ops : AgentOps ε) (s : AgentCore × ε) (input : Value) :
    ((∃ results thought,
        (runAgent ops s input).2
          = successOutcome (runAgent ops s input).1.1.name results thought ∧
        (runAgent ops s input).1.1.state = AgentState.completed) ∨
     (∃ msg,
        (runAgent ops s input).2
          = errorOutcome (runAgent ops s input).1.1.name msg ∧
        (runAgent ops s input).1.1.state = AgentState.error)) ∧
    (∀ e, ops.think (setAgentState s AgentState.thinking) input = .error e →
        (runAgent ops s input).2 = errorOutcome s.1.name e ∧
        (runAgent ops s input).1.1.state = AgentState.error) ∧
    (∀ (t : AgentCore × ε) (ad : Value) (rest acc : List Value) (nm inp : Value) (e : String),
        ad.subscript "name" = .ok nm →
        ad.getD "input" (.dict []) = .ok inp →
        ops.execute t { name := nm, input_data := inp } = .error e →
        execLoop ops t (ad :: rest) acc = (t, .error e)) := by
  refine ⟨?_, ?_, ?_⟩
  · unfold runAgent
    cases ht : ops.think (setAgentState s .thinking) input with
    | error e => right; exact ⟨e, by simp only [ht]; rfl, by simp only [ht]; rfl⟩
    | ok thought =>
      cases hg : thought.getD "actions" (.list []) with
      | error e => right; exact ⟨e, by simp only [ht, hg]; rfl, by simp only [ht, hg]; rfl⟩
      | ok actionsV =>
        cases hit : actionsV.iterate with
        | error e =>
          right; exact ⟨e, by simp only [ht, hg, hit]; rfl, by simp only [ht, hg, hit]; rfl⟩
        | ok actions =>
          rcases hl : execLoop ops (setAgentState (setAgentState s .thinking) .executing)
              actions [] with ⟨s3, res⟩
          cases res with
          | error e =>
            right
            exact ⟨e, by simp only [ht, hg, hit, hl]; rfl, by simp only [ht, hg, hit, hl]; rfl⟩
          | ok results =>
            left
            exact ⟨results, thought, by simp only [ht, hg, hit, hl]; rfl,
              by simp only [ht, hg, hit, hl]; rfl⟩
  · intro e he
    unfold runAgent
    simp only [he]
    exact ⟨rfl, rfl⟩
  · intro t ad rest acc nm inp e h1 h2 h3
    unfold execLoop
    simp only [h1, h2, h3]

/-- C2: the orchestrator's profile-analysis handler always wraps the
profile analyzer's whole `run` outcome — error-shaped or not — in a
normal `{step, result}` mapping (never re-raising), and on the concrete
`profile_only` scenario with a non-mapping `profile_data` the
orchestrator's own `run` still reports top-level status "success" while
the nested outcome carries status "error". -/
theorem orchestrator_wraps_nested_error :
    (∀ (s : AgentCore × Orchestrator.Extra) (data pd : Value),
        data.getD "profile_data" (.dict []) = .ok pd →
        Orchestrator.runProfileAnalysis s data =
          .ok (.dict [("step", .str "profile_analysis"),
                      ("result",
                        (runAgent ProfileAnalyzer.ops s.2.profile_analyzer
                          (.dict [("profile_data", pd),
                                  ("analysis_type", .str "full")])).2)],
               (s.1, { s.2 with profile_analyzer :=
                        (runAgent ProfileAnalyzer.ops s.2.profile_analyzer
                          (.dict [("profile_data", pd),
                                  ("analysis_type", .str "full")])).1 }))) ∧
    (∀ now : String,
      ((runAgent (Orchestrator.ops now) Orchestrator.init
          inputOrchestratorNested).2.fieldStr "status" = some "success") ∧
      ((firstResult (runAgent (Orchestrator.ops now) Orchestrator.init
            inputOrchestratorNested).2).bind (fun r0 => r0.fieldStr "step")
          = some "profile_analysis") ∧
      ((firstResult (runAgent (Orchestrator.ops now) Orchestrator.init
            inputOrchestratorNested).2).bind (fun r0 =>
              (r0.field "result").bind fun res => res.fieldStr "status")
          = some "error")) := by
  constructor
  · intro s data pd h
    unfold Orchestrator.runProfileAnalysis
    rw [h]
    simp only [Bind.bind, Except.bind, pure, Except.pure]
  · intro now
    exact ⟨rfl, rfl, rfl⟩

/-- Concrete witness for the wrapping property of
`orchestrator_wraps_nested_error`. -/
theorem orchestrator_wraps_nested_error_witness :
    Orchestrator.runProfileAnalysis Orchestrator.init
        (Value.dict [("profile_data", .int 5)]) =
      .ok (.dict [("step", .str "profile_analysis"),
                  ("result",
                    (runAgent ProfileAnalyzer.ops Orchestrator.init.2.profile_analyzer
                      (.dict [("profile_data", .int 5),
                              ("analysis_type", .str "full")])).2)],
           (Orchestrator.init.1, { Orchestrator.init.2 with profile_analyzer :=
                    (runAgent ProfileAnalyzer.ops Orchestrator.init.2.profile_analyzer
                      (.dict [("profile_data", .int 5),
                              ("analysis_type", .str "full")])).1 })) :=
  orchestrator_wraps_nested_error.1 Orchestrator.init
    (Value.dict [("profile_data", .int 5)]) (.int 5) (by rfl)

/-- Witness for `run_never_raises`: the profile analyzer given a
non-mapping `profile_data` — `think` raises and `run` converts the fault
into the error outcome with the exception's message. -/
theorem run_never_raises_witness :
    (runAgent ProfileAnalyzer.ops ProfileAnalyzer.init inputBadProfile).2
      = errorOutcome ProfileAnalyzer.init.1.name "'int' object has no attribute 'get'" ∧
    (runAgent ProfileAnalyzer.ops ProfileAnalyzer.init inputBadProfile).1.1.state
      = AgentState.error :=
  (run_never_raises ProfileAnalyzer.ops ProfileAnalyzer.init inputBadProfile).2.1
    "'int' object has no attribute 'get'" (by rfl)

/-- C3 counterexample: on `inputIntHeadline` the profile analyzer's
`think` emits four actions, the first handler faults
(`headline.split()` on an int) — yet the run ends with an empty action
history: the faulting action's record is neither mutated to carry an
error nor appended, contradicting the claimed per-action lifecycle. -/
theorem action_record_counterexample :
    thoughtActionCount (ProfileAnalyzer.thinkImpl inputIntHeadline) = some 4 ∧
    (runAgent ProfileAnalyzer.ops ProfileAnalyzer.init
        inputIntHeadline).1.1.actionsHistory.length = 0 ∧
    (runAgent ProfileAnalyzer.ops ProfileAnalyzer.init
        inputIntHeadline).2.fieldStr "status" = some "error" :=
  ⟨rfl, rfl, rfl⟩

/-- C3 (amended): during `run` the action history only ever grows, and
every record the loop appends is completed, output-populated and
error-free (a record for an action whose `execute` faults is discarded
without mutation or append, and later actions are never created); the
history is cleared only by `reset`. -/
theorem action_record_lifecycle {ε : Type} (ops : AgentOps ε)
    (s : AgentCore × ε) (input : Value)
    (hexec : ∀ t a r t', ops.execute t a = .ok (r, t') →
      t'.1.actionsHistory = t.1.actionsHistory) :
    (∃ recs, (runAgent ops s input).1.1.actionsHistory
        = s.1.actionsHistory ++ recs ∧
      ∀ rec ∈ recs, rec.status = "completed" ∧
        (∃ o, rec.output_data = some o) ∧ rec.error = Option.none) ∧
    (resetAgent s).1.actionsHistory = [] :=
  ⟨runAgent_history ops hexec s input, rfl⟩

/-- Witness for `action_record_lifecycle`: the profile analyzer on the
empty input (four successful analyses). -/
theorem action_record_lifecycle_witness :
    (∃ recs, (runAgent ProfileAnalyzer.ops ProfileAnalyzer.init
        (Value.dict [])).1.1.actionsHistory
        = ProfileAnalyzer.init.1.actionsHistory ++ recs ∧
      ∀ rec ∈ recs, rec.status = "completed" ∧
        (∃ o, rec.output_data = some o) ∧ rec.error = Option.none) ∧
    (resetAgent ProfileAnalyzer.init).1.actionsHistory = [] :=
  action_record_lifecycle ProfileAnalyzer.ops ProfileAnalyzer.init (Value.dict [])
    (fun t a r t' h =>
      congrArg (fun x => x.1.actionsHistory) (profileAnalyzer_execute_state t a r t' h))

/-- C10: for every agent of the repository, `run` leaves the agent's own
memory untouched on every path (think fault, execute fault, success);
memory changes only through `add_to_memory` (append) and `reset`
(clear). -/
theorem run_preserves_memory :
    (∀ (s : AgentCore × ProfileAnalyzer.Extra) (input : Value),
        (runAgent ProfileAnalyzer.ops s input).1.1.memory = s.1.memory) ∧
    (∀ (s : AgentCore × ContentGenerator.Extra) (input : Value),
        (runAgent ContentGenerator.ops s input).1.1.memory = s.1.memory) ∧
    (∀ (s : AgentCore × Portfolio.Extra) (input : Value),
        (runAgent Portfolio.ops s input).1.1.memory = s.1.memory) ∧
    (∀ (now : String) (s : AgentCore × Optimization.Extra) (input : Value),
        (runAgent (Optimization.ops now) s input).1.1.memory = s.1.memory) ∧
    (∀ (now : String) (s : AgentCore × Orchestrator.Extra) (input : Value),
        (runAgent (Orchestrator.ops now) s input).1.1.memory = s.1.memory) ∧
    (∀ (s : AgentCore × ProfileAnalyzer.Extra) (m : AgentMessage),
        (addToMemory s m).1.memory = s.1.memory ++ [m]) ∧
    (∀ (s : AgentCore × ProfileAnalyzer.Extra), (resetAgent s).1.memory = []) := by
  refine ⟨?_, ?_, ?_, ?_, ?_, ?_, ?_⟩
  · intro s input
    exact runAgent_memory _ (fun t a r t' h =>
      congrArg (fun x => x.1.memory) (profileAnalyzer_execute_state t a r t' h)) s input
  · intro s input
    exact runAgent_memory _ (fun t a r t' h =>
      congrArg (fun x => x.1.memory) (contentGenerator_execute_state t a r t' h)) s input
  · intro s input
    exact runAgent_memory _ (fun t a r t' h =>
      congrArg (fun x => x.1.memory) (portfolio_execute_state t a r t' h)) s input
  · intro now s input
    exact runAgent_memory _ (fun t a r t' h =>
      congrArg AgentCore.memory (optimization_execute_core now t a r t' h)) s input
  · intro now s input
    exact runAgent_memory _ (fun t a r t' h =>
      congrArg AgentCore.memory (orchestrator_execute_core now t a r t' h)) s input
  · intro s m
    rfl
  · intro s
    rfl

/-- C4 counterexample: with feedback `{"profile_views_trend": -5}` the
emitted action list DOES contain `reorder_skills` — the missing
`skill_click_rate` defaults to 0, which is below the 0.05 threshold and
therefore triggers reordering, contradicting the claim's "does not
include reorder_skills". -/
theorem optimization_think_counterexample :
    "reorder_skills" ∈
      (thoughtActionNames (Optimization.thinkImpl inputViewsDecline)).getD [] := by
  decide

/-- C4 (amended): with feedback `{"profile_views_trend": -5}` the
analysis sets `headline_needs_update` and `content_needs_refresh`, and
the action list contains `optimize_headline` AND `reorder_skills` (the
`skill_click_rate` default of 0 is below the 5% threshold, so the
default triggers the reorder action). -/
theorem optimization_think_views_decline :
    analysisFlag (Optimization.thinkImpl inputViewsDecline) "headline_needs_update"
      = some true ∧
    analysisFlag (Optimization.thinkImpl inputViewsDecline) "content_needs_refresh"
      = some true ∧
    thoughtActionNames (Optimization.thinkImpl inputViewsDecline)
      = some ["optimize_headline", "reorder_skills"] :=
  ⟨rfl, rfl, rfl⟩

/-- C5: the end-to-end headline scenario with no LLM client — `run`
succeeds with exactly one result whose section is "headline" and whose
content is the template-composed string, which contains both
"Data Scientist" and "Finance". -/
theorem content_generator_headline_scenario :
    (runAgent ContentGenerator.ops ContentGenerator.init
        inputHeadlineScenario).2.fieldStr "status" = some "success" ∧
    (resultsList (runAgent ContentGenerator.ops ContentGenerator.init
        inputHeadlineScenario).2).map List.length = some 1 ∧
    ((firstResult (runAgent ContentGenerator.ops ContentGenerator.init
        inputHeadlineScenario).2).bind fun r => r.fieldStr "section")
      = some "headline" ∧
    ((firstResult (runAgent ContentGenerator.ops ContentGenerator.init
        inputHeadlineScenario).2).bind fun r => r.fieldStr "content")
      = some "Data Scientist | Python & SQL | Driving Impact in Finance" ∧
    (((firstResult (runAgent ContentGenerator.ops ContentGenerator.init
        inputHeadlineScenario).2).bind fun r => r.fieldStr "content").map
        fun c => strContains c "Data Scientist" && strContains c "Finance")
      = some true :=
  ⟨rfl, rfl, rfl, rfl, rfl⟩

/-- C6: role classification is deterministic and order-sensitive — the
keyword categories are tested in the fixed order developer, analyst,
designer, manager, default, and the first match wins; in particular
"Engineering Manager" (developer keyword "engineer" AND manager keyword
"manager") resolves to "developer". -/
theorem portfolio_role_priority :
    Portfolio.categorizeRoleStr "Engineering Manager" = "developer" ∧
    (∀ role : String,
      Portfolio.devKeywords.any (fun kw => strContains (strLower role) kw) = true →
      Portfolio.categorizeRoleStr role = "developer") ∧
    (∀ role : String,
      Portfolio.analystKeywords.any (fun kw => strContains (strLower role) kw) = true →
      Portfolio.devKeywords.any (fun kw => strContains (strLower role) kw) = false →
      Portfolio.categorizeRoleStr role = "analyst") ∧
    (∀ role : String,
      Portfolio.designKeywords.any (fun kw => strContains (strLower role) kw) = true →
      Portfolio.devKeywords.any (fun kw => strContains (strLower role) kw) = false →
      Portfolio.analystKeywords.any (fun kw => strContains (strLower role) kw) = false →
      Portfolio.categorizeRoleStr role = "designer") ∧
    (∀ role : String,
      Portfolio.managerKeywords.any (fun kw => strContains (strLower role) kw) = true →
      Portfolio.devKeywords.any (fun kw => strContains (strLower role) kw) = false →
      Portfolio.analystKeywords.any (fun kw => strContains (strLower role) kw) = false →
      Portfolio.designKeywords.any (fun kw => strContains (strLower role) kw) = false →
      Portfolio.categorizeRoleStr role = "manager") ∧
    (∀ role : String,
      Portfolio.devKeywords.any (fun kw => strContains (strLower role) kw) = false →
      Portfolio.analystKeywords.any (fun kw => strContains (strLower role) kw) = false →
      Portfolio.designKeywords.any (fun kw => strContains (strLower role) kw) = false →
      Portfolio.managerKeywords.any (fun kw => strContains (strLower role) kw) = false →
      Portfolio.categorizeRoleStr role = "default") := by
  refine ⟨rfl, ?_, ?_, ?_, ?_, ?_⟩
  · intro role h
    unfold Portfolio.categorizeRoleStr
    simp [h]
  · intro role h hd
    unfold Portfolio.categorizeRoleStr
    simp [h, hd]
  · intro role h hd ha
    unfold Portfolio.categorizeRoleStr
    simp [h, hd, ha]
  · intro role h hd ha hdes
    unfold Portfolio.categorizeRoleStr
    simp [h, hd, ha, hdes]
  · intro role hd ha hdes hm
    unfold Portfolio.categorizeRoleStr
    simp [hd, ha, hdes, hm]

/-- Witness for `portfolio_role_priority`: a role matching only the
manager keywords lands in "manager". -/
theorem portfolio_role_priority_witness :
    Portfolio.categorizeRoleStr "Product Manager" = "manager" :=
  portfolio_role_priority.2.2.2.2.1 "Product Manager"
    (by decide) (by decide) (by decide) (by decide)

/-- C9: an unrecognized request type falls back to the
full-optimization workflow: the step sequence (and the emitted action
name sequence) are identical to the `full_optimization` ones. -/
theorem orchestrator_think_fallback :
    workflowSteps (Orchestrator.thinkImpl
        (.dict [("request_type", .str "unknown_tag")]))
      = workflowSteps (Orchestrator.thinkImpl
        (.dict [("request_type", .str "full_optimization")])) ∧
    thoughtActionNames (Orchestrator.thinkImpl
        (.dict [("request_type", .str "unknown_tag")]))
      = thoughtActionNames (Orchestrator.thinkImpl
        (.dict [("request_type", .str "full_optimization")])) ∧
    workflowSteps (Orchestrator.thinkImpl
        (.dict [("request_type", .str "unknown_tag")]))
      = some ["analyze_profile", "build_career_dna",
              "generate_content", "build_portfolio"] :=
  ⟨rfl, rfl, rfl⟩

/-- Appending messages through `add_to_memory` accumulates them in
insertion order. -/
theorem foldl_addToMemory_memory {ε : Type} (msgs : List AgentMessage)
    (s0 : AgentCore × ε) :
    (msgs.foldl addToMemory s0).1.memory = s0.1.memory ++ msgs := by
  induction msgs generalizing s0 with
  | nil => simp
  | cons m rest ih =>
    rw [List.foldl_cons, ih]
    simp [addToMemory]

/-- C7 counterexample: with one stored entry,
`get_memory_context(limit=0)` returns that entry — Python `lst[-0:]` is
the whole list — instead of the claimed `min(N, 0) = 0` entries. -/
theorem memory_context_counterexample :
    (getMemoryContext (addToMemory (resetAgent ProfileAnalyzer.init)
        { role := "user", content := "hi" }) 0).length = 1 := rfl

/-- C7 (amended): for every positive limit `k`, after appending `msgs`
to a freshly reset agent, `get_memory_context(limit=k)` returns exactly
the last `min(N, k)` entries in insertion order, each reduced to its
role/content view; for `k = 0` the source returns all `N` entries. -/
theorem memory_context_round_trip {ε : Type} (s : AgentCore × ε)
    (msgs : List AgentMessage) (k : Nat) (hk : 1 ≤ k) :
    (getMemoryContext (msgs.foldl addToMemory (resetAgent s)) k
        = (msgs.drop (msgs.length - k)).map memoryEntryView ∧
      (getMemoryContext (msgs.foldl addToMemory (resetAgent s)) k).length
        = min msgs.length k) ∧
    getMemoryContext (msgs.foldl addToMemory (resetAgent s)) 0
      = msgs.map memoryEntryView := by
  have hmem : (msgs.foldl addToMemory (resetAgent s)).1.memory = msgs := by
    rw [foldl_addToMemory_memory]
    simp [resetAgent]
  have hk0 : ¬ (k = 0) := by omega
  refine ⟨⟨?_, ?_⟩, ?_⟩
  · unfold getMemoryContext pySliceLast
    rw [hmem]
    simp only [hk0, if_false, List.map_drop]
    rfl
  · unfold getMemoryContext pySliceLast
    rw [hmem]
    simp only [hk0, if_false, List.length_map, List.length_drop]
    omega
  · unfold getMemoryContext pySliceLast
    rw [hmem]
    simp [memoryEntryView]

/-- Concrete message log for the memory round-trip witness. -/
def witnessMessages : List AgentMessage :=
  [{ role := "user", content := "a" },
   { role := "agent", content := "b" },
   { role := "user", content := "c" }]

/-- Witness for `memory_context_round_trip` at `N = 3`, `k = 2`. -/
theorem memory_context_round_trip_witness :
    (getMemoryContext (witnessMessages.foldl addToMemory
          (resetAgent ProfileAnalyzer.init)) 2
        = (witnessMessages.drop (witnessMessages.length - 2)).map memoryEntryView ∧
      (getMemoryContext (witnessMessages.foldl addToMemory
          (resetAgent ProfileAnalyzer.init)) 2).length
        = min witnessMessages.length 2) ∧
    getMemoryContext (witnessMessages.foldl addToMemory
        (resetAgent ProfileAnalyzer.init)) 0
      = witnessMessages.map memoryEntryView :=
  memory_context_round_trip ProfileAnalyzer.init witnessMessages 2 (by decide)

/-- C8: for every concrete agent, `execute` on an action whose name is
not in that agent's handler table returns the payload
`{"error": "Unknown action: <name>"}` without raising and with the
entire agent state returned unchanged — so calling it twice yields the
identical payload twice with no field changed in between. -/
theorem execute_unknown_action :
    (∀ (s : AgentCore × ProfileAnalyzer.Extra) (a : AgentAction) (n : String),
        a.name = .str n →
        n ∉ ["analyze_headline", "analyze_about", "analyze_experience",
             "analyze_skills"] →
        ProfileAnalyzer.executeImpl s a = .ok (unknownActionPayload a.name, s)) ∧
    (∀ (s : AgentCore × ContentGenerator.Extra) (a : AgentAction) (n : String),
        a.name = .str n →
        n ∉ ["generate_headline", "generate_about", "generate_experience"] →
        ContentGenerator.executeImpl s a = .ok (unknownActionPayload a.name, s)) ∧
    (∀ (s : AgentCore × Portfolio.Extra) (a : AgentAction) (n : String),
        a.name = .str n →
        n ∉ ["generate_hero", "generate_sections", "generate_layout"] →
        Portfolio.executeImpl s a = .ok (unknownActionPayload a.name, s)) ∧
    (∀ (now : String) (s : AgentCore × Optimization.Extra) (a : AgentAction) (n : String),
        a.name = .str n →
        n ∉ ["optimize_headline", "reorder_skills", "update_portfolio",
             "generate_ab_test"] →
        Optimization.executeImpl now s a = .ok (unknownActionPayload a.name, s)) ∧
    (∀ (now : String) (s : AgentCore × Orchestrator.Extra) (a : AgentAction) (n : String),
        a.name = .str n →
        n ∉ ["analyze_profile", "build_career_dna", "generate_content",
             "build_portfolio", "analyze_feedback", "apply_optimizations"] →
        Orchestrator.executeImpl now s a = .ok (unknownActionPayload a.name, s)) := by
  refine ⟨?_, ?_, ?_, ?_, ?_⟩
  · intro s a n hn hmem
    have h1 : n ≠ "analyze_headline" := fun hc => hmem (by rw [hc]; simp)
    have h2 : n ≠ "analyze_about" := fun hc => hmem (by rw [hc]; simp)
    have h3 : n ≠ "analyze_experience" := fun hc => hmem (by rw [hc]; simp)
    have h4 : n ≠ "analyze_skills" := fun hc => hmem (by rw [hc]; simp)
    unfold ProfileAnalyzer.executeImpl
    rw [hn]
    simp [Value.eqStr, h1, h2, h3, h4]
  · intro s a n hn hmem
    have h1 : n ≠ "generate_headline" := fun hc => hmem (by rw [hc]; simp)
    have h2 : n ≠ "generate_about" := fun hc => hmem (by rw [hc]; simp)
    have h3 : n ≠ "generate_experience" := fun hc => hmem (by rw [hc]; simp)
    unfold ContentGenerator.executeImpl
    rw [hn]
    simp [Value.eqStr, h1, h2, h3]
  · intro s a n hn hmem
    have h1 : n ≠ "generate_hero" := fun hc => hmem (by rw [hc]; simp)
    have h2 : n ≠ "generate_sections" := fun hc => hmem (by rw [hc]; simp)
    have h3 : n ≠ "generate_layout" := fun hc => hmem (by rw [hc]; simp)
    unfold Portfolio.executeImpl
    rw [hn]
    simp [Value.eqStr, h1, h2, h3]
  · intro now s a n hn hmem
    have h1 : n ≠ "optimize_headline" := fun hc => hmem (by rw [hc]; simp)
    have h2 : n ≠ "reorder_skills" := fun hc => hmem (by rw [hc]; simp)
    have h3 : n ≠ "update_portfolio" := fun hc => hmem (by rw [hc]; simp)
    have h4 : n ≠ "generate_ab_test" := fun hc => hmem (by rw [hc]; simp)
    unfold Optimization.executeImpl
    rw [hn]
    simp [Value.eqStr, h1, h2, h3, h4]
  · intro now s a n hn hmem
    have h1 : n ≠ "analyze_profile" := fun hc => hmem (by rw [hc]; simp)
    have h2 : n ≠ "build_career_dna" := fun hc => hmem (by rw [hc]; simp)
    have h3 : n ≠ "generate_content" := fun hc => hmem (by rw [hc]; simp)
    have h4 : n ≠ "build_portfolio" := fun hc => hmem (by rw [hc]; simp)
    have h5 : n ≠ "analyze_feedback" := fun hc => hmem (by rw [hc]; simp)
    have h6 : n ≠ "apply_optimizations" := fun hc => hmem (by rw [hc]; simp)
    unfold Orchestrator.executeImpl
    rw [hn]
    simp [Value.eqStr, h1, h2, h3, h4, h5, h6]

/-- Witness for `execute_unknown_action`: the name "bogus_action" is in
no agent's table; each `execute` answers with the error payload and the
unchanged state. -/
theorem execute_unknown_action_witness :
    ProfileAnalyzer.executeImpl ProfileAnalyzer.init
        { name := .str "bogus_action", input_data := .dict [] }
      = .ok (unknownActionPayload (.str "bogus_action"), ProfileAnalyzer.init) ∧
    ContentGenerator.executeImpl ContentGenerator.init
        { name := .str "bogus_action", input_data := .dict [] }
      = .ok (unknownActionPayload (.str "bogus_action"), ContentGenerator.init) ∧
    Portfolio.executeImpl Portfolio.init
        { name := .str "bogus_action", input_data := .dict [] }
      = .ok (unknownActionPayload (.str "bogus_action"), Portfolio.init) ∧
    Optimization.executeImpl "t0" Optimization.init
        { name := .str "bogus_action", input_data := .dict [] }
      = .ok (unknownActionPayload (.str "bogus_action"), Optimization.init) ∧
    Orchestrator.executeImpl "t0" Orchestrator.init
        { name := .str "bogus_action", input_data := .dict [] }
      = .ok (unknownActionPayload (.str "bogus_action"), Orchestrator.init) :=
  ⟨execute_unknown_action.1 ProfileAnalyzer.init _ "bogus_action" rfl (by decide),
   execute_unknown_action.2.1 ContentGenerator.init _ "bogus_action" rfl (by decide),
   execute_unknown_action.2.2.1 Portfolio.init _ "bogus_action" rfl (by decide),
   execute_unknown_action.2.2.2.1 "t0" Optimization.init _ "bogus_action" rfl (by decide),
   execute_unknown_action.2.2.2.2 "t0" Orchestrator.init _ "bogus_action" rfl (by decide)⟩
